import Mathlib

/-!
Verification of the ColorFall multiband dynamics processor core
(src/dsp.rs and src/lib.rs) against its natural-language specification.

Floating-point arithmetic is modelled over the reals.  The two nih_plug
utility conversions used by the DSP code, `util::db_to_gain` and
`util::gain_to_db`, are modelled with their documented -100 dB floor
(`MINUS_INFINITY_DB = -100.0`, `MINUS_INFINITY_GAIN = 1e-5`): gains at or
below -100 dB are flushed to exactly 0, and gain magnitudes are floored at
1e-5 before taking the logarithm.
-/

noncomputable section

namespace ColorFall

/-- Rust `f32::clamp(lo, hi)`: the value forced into the interval `[lo, hi]`. -/
def clampR (x lo hi : ℝ) : ℝ := max lo (min hi x)

/-- Rust `f32::signum`: 1 for nonnegative values (including +0.0), -1 for negative ones. -/
def signum (x : ℝ) : ℝ := if x < 0 then -1 else 1

/-- Models nih_plug `util::db_to_gain`: `10^(dbs/20)`, except that anything at or
below `MINUS_INFINITY_DB = -100` dB is treated as minus infinity and maps to 0. -/
def dbToGain (dbs : ℝ) : ℝ := if -100 < dbs then (10 : ℝ) ^ (dbs * 0.05) else 0

/-- Models nih_plug `util::gain_to_db`: `20*log10(gain)`, with the gain magnitude
floored at `MINUS_INFINITY_GAIN = 1e-5` so the result is never below -100 dB. -/
def gainToDb (gain : ℝ) : ℝ := Real.logb 10 (max |gain| 1e-5) * 20

/-- Constant `MAX_COMPENSATION_DB` from src/dsp.rs (max Q-boost gain). -/
def MAX_COMPENSATION_DB : ℝ := 6

/-- Constant `KNEE_MAX_DB` from src/dsp.rs (max knee width at Amount = 1). -/
def KNEE_MAX_DB : ℝ := 8

/-- Constant `TILT_MAX_SHIFT_SEMITONES` from src/dsp.rs. -/
def TILT_MAX_SHIFT_SEMITONES : ℝ := 4

/-- Function `shift_frequency` from src/dsp.rs: shifts a base frequency by
`tilt * 4` semitones. -/
def shift_frequency (base_freq tilt : ℝ) : ℝ :=
  base_freq * (2 : ℝ) ^ (tilt * TILT_MAX_SHIFT_SEMITONES / 12)

/-- Expression `tilt.abs().powf(1.5) * tilt.signum()` from `calculate_target_gr`
in src/dsp.rs (line 193). -/
def tiltEffect (tilt : ℝ) : ℝ := |tilt| ^ (1.5 : ℝ) * signum tilt

/-- The per-band tilt bias from `calculate_target_gr` in src/dsp.rs
(lines 194-201): the match on `band_idx` followed by `.clamp(0.2, 1.8)`. -/
def tiltBias (band_idx : ℕ) (tilt : ℝ) : ℝ :=
  clampR (if band_idx ≤ 1 then 1 + tiltEffect tilt * (-0.8)
          else if band_idx = 2 then 1
          else if band_idx ≤ 4 then 1 + tiltEffect tilt * 0.8
          else 1) 0.2 1.8

/-- The per-band frequency factor from `calculate_target_gr` in src/dsp.rs
(lines 205-212). -/
def freqFactor (band_idx : ℕ) : ℝ :=
  if band_idx = 0 then 1.5
  else if band_idx = 1 then 1.2
  else if band_idx = 2 then 1
  else if band_idx = 3 then 0.8
  else if band_idx = 4 then 0.5
  else 1

/-- The threshold computation from `calculate_target_gr` in src/dsp.rs
(lines 216-221): `-10 - 25*intensity - tilt*(-5)*(band_idx/4 - 0.5)` with
`intensity = amount * tilt_bias * freq_factor`. -/
def thresholdDb (band_idx : ℕ) (amount tilt : ℝ) : ℝ :=
  -10 - 25 * (amount * tiltBias band_idx tilt * freqFactor band_idx)
    - tilt * (-5) * ((band_idx : ℝ) / 4 - 0.5)

/-- The compression ratio from `calculate_target_gr` in src/dsp.rs (line 225). -/
def ratioOf (amount : ℝ) : ℝ := 1.1 + 15 * amount ^ (2.5 : ℝ)

/-- The knee width from `calculate_target_gr` in src/dsp.rs (line 229). -/
def kneeDb (amount : ℝ) : ℝ := KNEE_MAX_DB * amount ^ (1.5 : ℝ)

/-- The three-region soft-knee gain computer from `calculate_target_gr` in
src/dsp.rs (lines 234-246), producing the gain reduction in dB. -/
def softKneeGrDb (threshold rat knee input_db : ℝ) : ℝ :=
  if input_db < threshold - knee / 2 then 0
  else if input_db > threshold + knee / 2 then
    (threshold - input_db) * (1 - 1 / rat)
  else
    -(1 - 1 / rat) * ((input_db - (threshold - knee / 2))
      * (input_db - (threshold - knee / 2))) / (2 * knee)

/-- Function `calculate_target_gr` from src/dsp.rs (lines 187-250): target gain
reduction as a linear factor for one band. -/
def calculate_target_gr (band_idx : ℕ) (amount tilt envelope : ℝ) : ℝ :=
  dbToGain (min (softKneeGrDb (thresholdDb band_idx amount tilt) (ratioOf amount)
    (kneeDb amount) (gainToDb envelope)) 0)

/-- Function `saturate` from src/dsp.rs (lines 172-184).  Note the drive is
`amount.powf(1.5) * 0.9 + 0.1`, and `sample.powf(3.0)` is real exponentiation
(which agrees with the cube on all of ℝ). -/
def saturate (sample amount : ℝ) : ℝ :=
  let drive := amount ^ (1.5 : ℝ) * 0.9 + 0.1
  let out := drive * sample - drive ^ 2 / 3 * sample ^ (3 : ℝ)
  clampR (out * (1 - amount * 0.3)) (-1) 1

/-- Function `calculate_dynamic_time_constants` from src/dsp.rs (lines 253-277);
the `_band_idx` argument is unused in the source and omitted here.  Returns
(attack, release) in samples. -/
def calculate_dynamic_time_constants (sample_rate band_center_freq amount : ℝ) : ℝ × ℝ :=
  let freq_scale := clampR (Real.sqrt (band_center_freq / 2000)) 0.5 2
  let amount_scale := 1 - amount ^ (0.75 : ℝ) * 0.8
  let attack_ms := 20 * amount_scale / freq_scale ^ (0.5 : ℝ)
  let release_ms := 300 * amount_scale / freq_scale ^ (1.5 : ℝ)
  (sample_rate * (attack_ms / 1000), sample_rate * (release_ms / 1000))

/-- Coefficients of a biquad section, as in `BiquadCoefficients` of src/dsp.rs. -/
structure BiquadCoefficients where
  a1 : ℝ
  a2 : ℝ
  b0 : ℝ
  b1 : ℝ
  b2 : ℝ

/-- Normalization term `a0 = 1 + alpha` of `calculate_lr_lowpass` in src/dsp.rs
(lines 81, 86), with `alpha = sin(w0) / (2*q)` and `q = 1/sqrt 2`. -/
def lrA0 (sample_rate cutoff_freq : ℝ) : ℝ :=
  1 + Real.sin (2 * Real.pi * cutoff_freq / sample_rate) / (2 * (1 / Real.sqrt 2))

/-- Function `BiquadCoefficients::calculate_lr_lowpass` from src/dsp.rs
(lines 75-98).  The divisor is `d = a0` with NO added epsilon. -/
def calculate_lr_lowpass (sample_rate cutoff_freq : ℝ) : BiquadCoefficients :=
  let w0 := 2 * Real.pi * cutoff_freq / sample_rate
  let cos_w0 := Real.cos w0
  let alpha := Real.sin w0 / (2 * (1 / Real.sqrt 2))
  let d := lrA0 sample_rate cutoff_freq
  { b0 := ((1 - cos_w0) / 2) / d
    b1 := (1 - cos_w0) / d
    b2 := ((1 - cos_w0) / 2) / d
    a1 := (-2 * cos_w0) / d
    a2 := (1 - alpha) / d }

/-- Function `BiquadCoefficients::calculate_peaking` from src/dsp.rs
(lines 101-125).  The divisor is `d = a0 + 1e-9` (epsilon-guarded). -/
def calculate_peaking (sample_rate freq q gain_db : ℝ) : BiquadCoefficients :=
  let a := dbToGain gain_db
  let w0 := 2 * Real.pi * freq / sample_rate
  let cos_w0 := Real.cos w0
  let sin_w0 := Real.sin w0
  let alpha := sin_w0 / (2 * q)
  let d := (1 + alpha / a) + 1e-9
  { b0 := (1 + alpha * a) / d
    b1 := (-2 * cos_w0) / d
    b2 := (1 - alpha * a) / d
    a1 := (-2 * cos_w0) / d
    a2 := (1 - alpha / a) / d }

/-- State of one biquad channel (`BiquadState` in src/dsp.rs). -/
structure BiquadState where
  z1 : ℝ
  z2 : ℝ

/-- Stereo biquad (`Biquad` in src/dsp.rs): one coefficient set, independent
left/right state. -/
structure Biquad where
  coefs : BiquadCoefficients
  state_l : BiquadState
  state_r : BiquadState

/-- Method `Biquad::process` from src/dsp.rs (lines 138-152): transposed direct
form 2 on each channel; returns the stereo output and the updated filter. -/
def Biquad.process (b : Biquad) (sample_l sample_r : ℝ) : (ℝ × ℝ) × Biquad :=
  let c := b.coefs
  let out_l := c.b0 * sample_l + b.state_l.z1
  let z1l := c.b1 * sample_l - c.a1 * out_l + b.state_l.z2
  let z2l := c.b2 * sample_l - c.a2 * out_l
  let out_r := c.b0 * sample_r + b.state_r.z1
  let z1r := c.b1 * sample_r - c.a1 * out_r + b.state_r.z2
  let z2r := c.b2 * sample_r - c.a2 * out_r
  ((out_l, out_r), ⟨c, ⟨z1l, z2l⟩, ⟨z1r, z2r⟩⟩)

/-- Method `Biquad::update_lr_lowpass` from src/dsp.rs (lines 154-156). -/
def Biquad.update_lr_lowpass (b : Biquad) (sample_rate cutoff_freq : ℝ) : Biquad :=
  { b with coefs := calculate_lr_lowpass sample_rate cutoff_freq }

/-- Method `Biquad::update_peaking` from src/dsp.rs (lines 159-161). -/
def Biquad.update_peaking (b : Biquad) (sample_rate freq q gain_db : ℝ) : Biquad :=
  { b with coefs := calculate_peaking sample_rate freq q gain_db }

/-- Method `Biquad::reset` from src/dsp.rs (lines 164-167): zeroes state only. -/
def Biquad.reset (b : Biquad) : Biquad :=
  { b with state_l := ⟨0, 0⟩, state_r := ⟨0, 0⟩ }

/-- Reference definition of the gain computer exactly as claim C1 (spec section
4.3) words it, with `input_db = 20*log10(envelope)`.  At `envelope = 0` the
spec's `input_db` is minus infinity, which lies below every knee, so the spec
formula yields 0 dB of gain reduction there; `Real.logb` is a total function
with junk value `logb 10 0 = 0`, so that boundary case is made explicit.  The
final dB-to-linear conversion (which the claim does not spell out) is the
program's `util::db_to_gain`. -/
def spec_target_gr (i : ℕ) (amount tilt envelope : ℝ) : ℝ :=
  let tilt_effect := |tilt| ^ (1.5 : ℝ) * signum tilt
  let tilt_bias := clampR (if i ≤ 1 then 1 + tilt_effect * (-0.8)
      else if i = 2 then 1
      else if i ≤ 4 then 1 + tilt_effect * 0.8
      else 1) 0.2 1.8
  let freq_factor := if i = 0 then (1.5 : ℝ)
      else if i = 1 then 1.2
      else if i = 2 then 1
      else if i = 3 then 0.8
      else if i = 4 then 0.5
      else 1
  let intensity := amount * tilt_bias * freq_factor
  let threshold_db := -10 - 25 * intensity - tilt * (-5) * ((i : ℝ) / 4 - 0.5)
  let rat := 1.1 + 15 * amount ^ (2.5 : ℝ)
  let knee_db := 8 * amount ^ (1.5 : ℝ)
  let gr_db := if envelope = 0 then 0 else
    let input_db := 20 * Real.logb 10 envelope
    if input_db < threshold_db - knee_db / 2 then 0
    else if input_db > threshold_db + knee_db / 2 then
      (threshold_db - input_db) * (1 - 1 / rat)
    else
      -(1 - 1 / rat) * ((input_db - (threshold_db - knee_db / 2))
        * (input_db - (threshold_db - knee_db / 2))) / (2 * knee_db)
  dbToGain (min gr_db 0)

/-! Arithmetic helper lemmas. -/

lemma log10_pos : 0 < Real.log 10 := Real.log_pos (by norm_num)

lemma logb10_pow (n : ℕ) : Real.logb 10 ((10 : ℝ) ^ n) = n := by
  rw [Real.logb, Real.log_pow]
  field_simp

lemma logb10_inv_pow (n : ℕ) : Real.logb 10 (((10 : ℝ) ^ n)⁻¹) = -(n : ℝ) := by
  rw [Real.logb, Real.log_inv, Real.log_pow]
  field_simp

lemma gainToDb_zero : gainToDb 0 = -100 := by
  have h : max |(0 : ℝ)| 1e-5 = ((10 : ℝ) ^ (5 : ℕ))⁻¹ := by norm_num
  rw [gainToDb, h, logb10_inv_pow]
  norm_num

lemma gainToDb_one : gainToDb 1 = 0 := by
  have h : max |(1 : ℝ)| 1e-5 = (1 : ℝ) := by norm_num
  rw [gainToDb, h, Real.logb_one, zero_mul]

lemma dbToGain_zero : dbToGain 0 = 1 := by
  rw [dbToGain, if_pos (by norm_num : (-100 : ℝ) < 0)]
  rw [show (0 : ℝ) * 0.05 = 0 by norm_num, Real.rpow_zero]

lemma dbToGain_nonneg (x : ℝ) : 0 ≤ dbToGain x := by
  rw [dbToGain]
  split_ifs
  · exact (Real.rpow_pos_of_pos (by norm_num) _).le
  · exact le_refl 0

lemma dbToGain_le_one {x : ℝ} (h : x ≤ 0) : dbToGain x ≤ 1 := by
  rw [dbToGain]
  split_ifs
  · exact Real.rpow_le_one_of_one_le_of_nonpos (by norm_num) (by nlinarith)
  · norm_num

lemma clampR_le {lo hi : ℝ} (x : ℝ) (h : lo ≤ hi) : clampR x lo hi ≤ hi :=
  max_le h (min_le_left _ _)

lemma le_clampR (x lo hi : ℝ) : lo ≤ clampR x lo hi := le_max_left _ _

lemma clampR_eq {x lo hi : ℝ} (h1 : lo ≤ x) (h2 : x ≤ hi) : clampR x lo hi = x := by
  rw [clampR, min_eq_right h2, max_eq_right h1]

lemma tiltBias_mem (i : ℕ) (t : ℝ) : 0.2 ≤ tiltBias i t ∧ tiltBias i t ≤ 1.8 :=
  ⟨le_clampR _ _ _, clampR_le _ (by norm_num)⟩

lemma freqFactor_mem (i : ℕ) : 0 < freqFactor i ∧ freqFactor i ≤ 1.5 := by
  unfold freqFactor
  split_ifs <;> norm_num

lemma kneeDb_mem {a : ℝ} (ha0 : 0 ≤ a) (ha1 : a ≤ 1) : 0 ≤ kneeDb a ∧ kneeDb a ≤ 8 := by
  have h1 : a ^ (1.5 : ℝ) ≤ 1 := Real.rpow_le_one ha0 ha1 (by norm_num)
  have h0 : 0 ≤ a ^ (1.5 : ℝ) := Real.rpow_nonneg ha0 _
  unfold kneeDb KNEE_MAX_DB
  constructor <;> nlinarith

/-- Lower bound on the bottom of the knee: with the claimed parameter ranges the
threshold minus half the knee never drops below -84 dB, in particular it stays
strictly above the -100 dB detector floor. -/
lemma threshold_knee_lb {i : ℕ} {a t : ℝ} (hi : i ≤ 4) (ha0 : 0 ≤ a) (ha1 : a ≤ 1)
    (ht : |t| ≤ 1) : -84 ≤ thresholdDb i a t - kneeDb a / 2 := by
  have hb := tiltBias_mem i t
  have hf := freqFactor_mem i
  have hk := kneeDb_mem ha0 ha1
  have hB0 : 0 ≤ tiltBias i t := by linarith [hb.1]
  have h1 : a * tiltBias i t ≤ 1.8 := by nlinarith
  have h1' : 0 ≤ a * tiltBias i t := mul_nonneg ha0 hB0
  have hint : a * tiltBias i t * freqFactor i ≤ 2.7 := by nlinarith
  have h4 : (i : ℝ) ≤ 4 := by exact_mod_cast hi
  have h0 : (0 : ℝ) ≤ (i : ℝ) := Nat.cast_nonneg i
  have habs := abs_le.mp ht
  have hterm : t * (-5) * ((i : ℝ) / 4 - 0.5) ≤ 2.5 := by nlinarith
  unfold thresholdDb
  nlinarith

/-- C1: for every band index in 0..4, amount in [0,1], tilt in [-1,1] and
envelope >= 0, `calculate_target_gr` computes the gain reduction exactly by the
spec's reference definition (tilt bias, frequency factor, threshold, ratio,
knee and the three-region soft-knee formula on `input_db = 20*log10(envelope)`,
clamped to at most 0 dB and converted to linear gain). -/
theorem target_gr_matches_spec (i : ℕ) (amount tilt envelope : ℝ) (hi : i ≤ 4)
    (ha0 : 0 ≤ amount) (ha1 : amount ≤ 1) (ht : |tilt| ≤ 1) (he : 0 ≤ envelope) :
    calculate_target_gr i amount tilt envelope = spec_target_gr i amount tilt envelope := by
  have hlb := threshold_knee_lb hi ha0 ha1 ht
  show dbToGain (min (softKneeGrDb (thresholdDb i amount tilt) (ratioOf amount)
      (kneeDb amount) (gainToDb envelope)) 0)
    = dbToGain (min (if envelope = 0 then 0
        else softKneeGrDb (thresholdDb i amount tilt) (ratioOf amount) (kneeDb amount)
          (20 * Real.logb 10 envelope)) 0)
  congr 2
  by_cases h0 : envelope = 0
  · subst h0
    rw [if_pos rfl, gainToDb_zero, softKneeGrDb,
      if_pos (by linarith : (-100 : ℝ) < thresholdDb i amount tilt - kneeDb amount / 2)]
  · rw [if_neg h0]
    have hepos : 0 < envelope := lt_of_le_of_ne he (Ne.symm h0)
    by_cases h5 : (1e-5 : ℝ) ≤ envelope
    · have hg : gainToDb envelope = 20 * Real.logb 10 envelope := by
        rw [gainToDb, abs_of_nonneg he, max_eq_left h5, mul_comm]
      rw [hg]
    · push_neg at h5
      have hA : gainToDb envelope = -100 := by
        rw [gainToDb, abs_of_nonneg he, max_eq_right h5.le,
          show (1e-5 : ℝ) = ((10 : ℝ) ^ (5 : ℕ))⁻¹ by norm_num, logb10_inv_pow]
        norm_num
      have hB : 20 * Real.logb 10 envelope < -100 := by
        have h1 : Real.log envelope < Real.log (((10 : ℝ) ^ (5 : ℕ))⁻¹) :=
          Real.log_lt_log hepos (by calc envelope < 1e-5 := h5
                                      _ = ((10 : ℝ) ^ (5 : ℕ))⁻¹ := by norm_num)
        rw [Real.log_inv, Real.log_pow] at h1
        have hL : Real.log envelope / Real.log 10 < -5 := by
          rw [div_lt_iff₀ log10_pos]
          push_cast at h1
          linarith
        rw [Real.logb]
        linarith
      rw [hA, softKneeGrDb, softKneeGrDb,
        if_pos (by linarith : (-100 : ℝ) < thresholdDb i amount tilt - kneeDb amount / 2),
        if_pos (by linarith : 20 * Real.logb 10 envelope
          < thresholdDb i amount tilt - kneeDb amount / 2)]

/-- Witness for C1 at the concrete input i = 0, amount = 0, tilt = 0, envelope = 1. -/
theorem target_gr_matches_spec_witness :
    calculate_target_gr 0 0 0 1 = spec_target_gr 0 0 0 1 :=
  target_gr_matches_spec 0 0 0 1 (by norm_num) (by norm_num) (by norm_num)
    (by norm_num) (by norm_num)

/-- Reference definition of the saturator as claim C3 words it: the drive is
LINEAR in amount, `drive = amount*0.9 + 0.1`. -/
def spec_saturate (sample amount : ℝ) : ℝ :=
  let drive := amount * 0.9 + 0.1
  let out := drive * sample - drive ^ 2 / 3 * sample ^ (3 : ℕ)
  clampR (out * (1 - amount * 0.3)) (-1) 1

lemma quarter_rpow_3div2 : ((1 / 4 : ℝ)) ^ (1.5 : ℝ) = 1 / 8 := by
  have h : ((1 / 4 : ℝ)) = ((1 / 2 : ℝ)) ^ (2 : ℕ) := by norm_num
  rw [h, ← Real.rpow_natCast ((1 / 2 : ℝ)) 2, ← Real.rpow_mul (by norm_num)]
  rw [show ((2 : ℕ) : ℝ) * (1.5 : ℝ) = ((3 : ℕ) : ℝ) by norm_num, Real.rpow_natCast]
  norm_num

/-- C3 counterexample: the code's saturator does NOT match the claim's reference
definition; at sample = 1, amount = 1/4 the code (drive `amount^1.5*0.9+0.1`)
yields 147849/768000 while the claim's linear drive yields 216996/768000. -/
theorem saturate_spec_drive_cex : saturate 1 (1 / 4) ≠ spec_saturate 1 (1 / 4) := by
  rw [saturate, spec_saturate, quarter_rpow_3div2,
    show ((1 : ℝ)) ^ (3 : ℝ) = 1 by rw [Real.one_rpow]]
  rw [clampR, clampR]
  norm_num

/-- C3 (amended): `saturate` equals the claim's formula with the drive corrected
to `amount^1.5 * 0.9 + 0.1` (the exponent 1.5 is the only change the
counterexample forces). -/
theorem saturate_drive_formula (x a : ℝ) :
    saturate x a
      = clampR (((a ^ (1.5 : ℝ) * 0.9 + 0.1) * x
          - (a ^ (1.5 : ℝ) * 0.9 + 0.1) ^ 2 / 3 * x ^ (3 : ℕ)) * (1 - a * 0.3)) (-1) 1 := by
  rw [saturate, show (3 : ℝ) = ((3 : ℕ) : ℝ) by norm_num, Real.rpow_natCast]

/-- C4 counterexample: the gain-reduction factor is NOT always strictly
positive.  At band 0, amount = 1, tilt = 0, envelope = 10^4 the computed gain
reduction is about -119.6 dB, which the dB-to-linear conversion flushes to
exactly 0. -/
theorem gr_factor_zero_cex : calculate_target_gr 0 1 0 10000 = 0 := by
  have htb : tiltBias 0 0 = 1 := by
    rw [tiltBias, if_pos (by norm_num : (0 : ℕ) ≤ 1), tiltEffect]
    rw [abs_zero, Real.zero_rpow (by norm_num : (1.5 : ℝ) ≠ 0), zero_mul, clampR]
    norm_num
  have hth : thresholdDb 0 1 0 = -47.5 := by
    rw [thresholdDb, htb, freqFactor]
    norm_num
  have hrt : ratioOf 1 = 16.1 := by rw [ratioOf, Real.one_rpow]; norm_num
  have hkn : kneeDb 1 = 8 := by rw [kneeDb, Real.one_rpow, KNEE_MAX_DB]; norm_num
  have hin : gainToDb 10000 = 80 := by
    rw [gainToDb, show max |(10000 : ℝ)| 1e-5 = (10 : ℝ) ^ (4 : ℕ) by norm_num, logb10_pow]
    norm_num
  rw [calculate_target_gr, hth, hrt, hkn, hin, softKneeGrDb]
  rw [if_neg (by norm_num), if_pos (by norm_num)]
  rw [show ((-47.5 : ℝ) - 80) * (1 - 1 / 16.1) = -19252.5 / 161 by norm_num]
  rw [show min (-19252.5 / 161 : ℝ) 0 = -19252.5 / 161 by norm_num]
  rw [dbToGain, if_neg (by norm_num)]

/-- C4 (amended): for every band index in 0..4, amount in [0,1], tilt in [-1,1]
and envelope >= 0, the gain-reduction factor lies in the closed interval [0,1]
(attenuation only; it reaches exactly 0 when the computed gain reduction falls
at or below the -100 dB conversion floor). -/
theorem gr_factor_unit_interval (i : ℕ) (amount tilt envelope : ℝ) (_hi : i ≤ 4)
    (_ha0 : 0 ≤ amount) (_ha1 : amount ≤ 1) (_ht : |tilt| ≤ 1) (_he : 0 ≤ envelope) :
    0 ≤ calculate_target_gr i amount tilt envelope
      ∧ calculate_target_gr i amount tilt envelope ≤ 1 := by
  rw [calculate_target_gr]
  exact ⟨dbToGain_nonneg _, dbToGain_le_one (min_le_right _ _)⟩

/-- Witness for the amended C4 at i = 0, amount = 0, tilt = 0, envelope = 0. -/
theorem gr_factor_unit_interval_witness :
    0 ≤ calculate_target_gr 0 0 0 0 ∧ calculate_target_gr 0 0 0 0 ≤ 1 :=
  gr_factor_unit_interval 0 0 0 0 (by norm_num) (by norm_num) (by norm_num)
    (by norm_num) (by norm_num)

/-- Modelled from the claim C8 wording: `calculate_lr_lowpass` as it would be
if its normalization division were guarded with the same additive epsilon as
`calculate_peaking`.  The source (src/dsp.rs line 90) has `let d = a0;` with no
epsilon, so this differs from `calculate_lr_lowpass`. -/
def spec_lr_lowpass_guarded (sample_rate cutoff_freq : ℝ) : BiquadCoefficients :=
  let w0 := 2 * Real.pi * cutoff_freq / sample_rate
  let cos_w0 := Real.cos w0
  let alpha := Real.sin w0 / (2 * (1 / Real.sqrt 2))
  let d := lrA0 sample_rate cutoff_freq + 1e-9
  { b0 := ((1 - cos_w0) / 2) / d
    b1 := (1 - cos_w0) / d
    b2 := ((1 - cos_w0) / 2) / d
    a1 := (-2 * cos_w0) / d
    a2 := (1 - alpha) / d }

lemma sqrt_two_pos : (0 : ℝ) < Real.sqrt 2 := Real.sqrt_pos.mpr (by norm_num)

lemma sqrt_two_sq : Real.sqrt 2 * Real.sqrt 2 = 2 := Real.mul_self_sqrt (by norm_num)

lemma sqrt_two_lt_two : Real.sqrt 2 < 2 := by
  nlinarith [sqrt_two_sq, Real.sqrt_nonneg 2]

/-- C8 counterexample: `calculate_lr_lowpass` has NO epsilon guard, so it
differs from the epsilon-guarded version the claim describes; shown at
sample rate 4 and cutoff 1 (where w0 = pi/2). -/
theorem lowpass_no_epsilon_cex :
    (calculate_lr_lowpass 4 1).b0 ≠ (spec_lr_lowpass_guarded 4 1).b0 := by
  have hw : 2 * Real.pi * 1 / 4 = Real.pi / 2 := by ring
  have hc : Real.cos (2 * Real.pi * 1 / 4) = 0 := by rw [hw, Real.cos_pi_div_two]
  have hs : Real.sin (2 * Real.pi * 1 / 4) = 1 := by rw [hw, Real.sin_pi_div_two]
  have hd : lrA0 4 1 = 1 + Real.sqrt 2 / 2 := by
    rw [lrA0, hs]
    have h2 := sqrt_two_pos
    field_simp
    nlinarith [sqrt_two_sq]
  intro h
  simp only [calculate_lr_lowpass, spec_lr_lowpass_guarded, hc, hd] at h
  have hd1 : (0 : ℝ) < 1 + Real.sqrt 2 / 2 := by nlinarith [sqrt_two_pos]
  have hd2 : (0 : ℝ) < 1 + Real.sqrt 2 / 2 + 1e-9 := by nlinarith [sqrt_two_pos]
  rw [div_eq_div_iff hd1.ne' hd2.ne'] at h
  nlinarith [h]

/-- C8 (amended): only `calculate_peaking` guards its normalization with the
additive epsilon 1e-9; `calculate_lr_lowpass` divides by the bare
`a0 = 1 + sin(w0)/sqrt 2`, which is nevertheless bounded below by
`1 - sqrt 2 / 2 > 0` for every sample rate and frequency, so that division is
well-defined for all real inputs. -/
theorem lowpass_norm_unguarded_safe :
    (∀ sample_rate cutoff_freq : ℝ,
      1 - Real.sqrt 2 / 2 ≤ lrA0 sample_rate cutoff_freq
        ∧ 0 < lrA0 sample_rate cutoff_freq)
    ∧ ∀ sample_rate freq q gain_db : ℝ,
        (calculate_peaking sample_rate freq q gain_db).b0
          = (1 + Real.sin (2 * Real.pi * freq / sample_rate) / (2 * q) * dbToGain gain_db)
            / ((1 + Real.sin (2 * Real.pi * freq / sample_rate) / (2 * q) / dbToGain gain_db)
                + 1e-9) := by
  constructor
  · intro sample_rate cutoff_freq
    have hs := Real.neg_one_le_sin (2 * Real.pi * cutoff_freq / sample_rate)
    have hkey : 2 * (1 / Real.sqrt 2) = Real.sqrt 2 := by
      rw [one_div]
      field_simp
    have hb : -(Real.sqrt 2) / 2
        ≤ Real.sin (2 * Real.pi * cutoff_freq / sample_rate) / Real.sqrt 2 := by
      rw [div_le_div_iff₀ (by norm_num) sqrt_two_pos]
      nlinarith [sqrt_two_sq]
    have h1 : 1 - Real.sqrt 2 / 2 ≤ lrA0 sample_rate cutoff_freq := by
      rw [lrA0, hkey]
      linarith
    exact ⟨h1, by nlinarith [sqrt_two_lt_two]⟩
  · intro sample_rate freq q gain_db
    rfl

/-- C9: coefficient updates change only the coefficient set and leave the
left/right filter states unchanged, and `reset` zeroes only the states and
leaves the coefficients unchanged. -/
theorem biquad_coef_state_decoupled (b : Biquad) (sr cf f q g : ℝ) :
    ((b.update_lr_lowpass sr cf).state_l = b.state_l
      ∧ (b.update_lr_lowpass sr cf).state_r = b.state_r)
    ∧ ((b.update_peaking sr f q g).state_l = b.state_l
      ∧ (b.update_peaking sr f q g).state_r = b.state_r)
    ∧ (b.reset.coefs = b.coefs
      ∧ b.reset.state_l = ⟨0, 0⟩ ∧ b.reset.state_r = ⟨0, 0⟩) :=
  ⟨⟨rfl, rfl⟩, ⟨rfl, rfl⟩, rfl, rfl, rfl⟩

/-- Result of the crossover splitting stage of `ColorFall::process`
(src/lib.rs lines 306-314): five band signals per channel plus the four
updated crossover filters. -/
structure SplitResult where
  b0l : ℝ
  b1l : ℝ
  b2l : ℝ
  b3l : ℝ
  b4l : ℝ
  b0r : ℝ
  b1r : ℝ
  b2r : ℝ
  b3r : ℝ
  b4r : ℝ
  x0 : Biquad
  x1 : Biquad
  x2 : Biquad
  x3 : Biquad

/-- The band-splitting loop of `ColorFall::process` (src/lib.rs lines 299-314):
the crossovers are processed from the highest cutoff (index 3) down to the
lowest; each upper band is the stage input minus its lowpassed output, and the
final lowpass output is band 0. -/
def splitBands (c0 c1 c2 c3 : Biquad) (l r : ℝ) : SplitResult :=
  let p3 := c3.process l r
  let p2 := c2.process p3.1.1 p3.1.2
  let p1 := c1.process p2.1.1 p2.1.2
  let p0 := c0.process p1.1.1 p1.1.2
  { b4l := l - p3.1.1, b4r := r - p3.1.2
    b3l := p3.1.1 - p2.1.1, b3r := p3.1.2 - p2.1.2
    b2l := p2.1.1 - p1.1.1, b2r := p2.1.2 - p1.1.2
    b1l := p1.1.1 - p0.1.1, b1r := p1.1.2 - p0.1.2
    b0l := p0.1.1, b0r := p0.1.2
    x0 := p0.2, x1 := p1.2, x2 := p2.2, x3 := p3.2 }

lemma splitBands_sum (c0 c1 c2 c3 : Biquad) (l r : ℝ) :
    ((splitBands c0 c1 c2 c3 l r).b0l + (splitBands c0 c1 c2 c3 l r).b1l
      + (splitBands c0 c1 c2 c3 l r).b2l + (splitBands c0 c1 c2 c3 l r).b3l
      + (splitBands c0 c1 c2 c3 l r).b4l = l)
    ∧ ((splitBands c0 c1 c2 c3 l r).b0r + (splitBands c0 c1 c2 c3 l r).b1r
      + (splitBands c0 c1 c2 c3 l r).b2r + (splitBands c0 c1 c2 c3 l r).b3r
      + (splitBands c0 c1 c2 c3 l r).b4r = r) := by
  constructor <;> (simp only [splitBands]; ring)

/-- C10: for every input sample pair, crossover coefficients and internal
states, the five band signals sum exactly (in real arithmetic) to the input on
each channel: the construction telescopes. -/
theorem crossover_sum_exact (c0 c1 c2 c3 : Biquad) (l r : ℝ) :
    ((splitBands c0 c1 c2 c3 l r).b0l + (splitBands c0 c1 c2 c3 l r).b1l
      + (splitBands c0 c1 c2 c3 l r).b2l + (splitBands c0 c1 c2 c3 l r).b3l
      + (splitBands c0 c1 c2 c3 l r).b4l = l)
    ∧ ((splitBands c0 c1 c2 c3 l r).b0r + (splitBands c0 c1 c2 c3 l r).b1r
      + (splitBands c0 c1 c2 c3 l r).b2r + (splitBands c0 c1 c2 c3 l r).b3r
      + (splitBands c0 c1 c2 c3 l r).b4r = r) :=
  splitBands_sum c0 c1 c2 c3 l r

/-- Constant `BASE_CROSSOVER_FREQS` from src/lib.rs (line 165). -/
def BASE_CROSSOVER_FREQS (j : ℕ) : ℝ :=
  if j = 0 then 150 else if j = 1 then 800 else if j = 2 then 4000 else 9000

/-- The band center frequency computation of `ColorFall::process`
(src/lib.rs lines 328-340 and identically 433-445): geometric mean of the
band's tilt-shifted crossover bounds, with outer bounds 20 Hz and Nyquist. -/
def bandCenterFreq (sample_rate tilt : ℝ) (i : ℕ) : ℝ :=
  let lower := if i = 0 then 20 else shift_frequency (BASE_CROSSOVER_FREQS (i - 1)) tilt
  let upper := if i = 4 then sample_rate / 2 else shift_frequency (BASE_CROSSOVER_FREQS i) tilt
  Real.sqrt (lower * upper)

/-- The reactive EQ's per-band tilt factor from `ColorFall::process`
(src/lib.rs lines 411-418): bands 0-1 use `1 + tilt_effect*(-0.6)`, band 2 is
neutral, bands 3-4 use `1 + tilt_effect*0.6`, all clamped to [0.4, 1.6]. -/
def eqBandTiltFactor (i : ℕ) (tilt : ℝ) : ℝ :=
  clampR (if i ≤ 1 then 1 + tiltEffect tilt * (-0.6)
          else if i = 2 then 1
          else if i ≤ 4 then 1 + tiltEffect tilt * 0.6
          else 1) 0.4 1.6

/-- The reactive EQ's Q factor from `ColorFall::process` (src/lib.rs
lines 420-422). -/
def eqQFactor (i : ℕ) (amount tilt : ℝ) : ℝ :=
  clampR ((0.7 + 8 * amount ^ (2 : ℝ)) * (1 + tilt * ((i : ℝ) - 2) * 0.4)) 0.5 20

/-- The reactive EQ's gain from `ColorFall::process` (src/lib.rs lines
424-430): `(|gr_db|/24) * MAX_COMPENSATION_DB * (amount * band_tilt_factor)`. -/
def eqCompensationGainDb (i : ℕ) (amount tilt avg_gr_factor : ℝ) : ℝ :=
  |gainToDb avg_gr_factor| / 24 * MAX_COMPENSATION_DB * (amount * eqBandTiltFactor i tilt)

/-- Modelled from the claim C5 wording: EQ gain equal to the measured gain
reduction normalized against a -24 dB reference and scaled by
`amount * tilt_bias`, with tilt_bias the per-band bias of spec section 4.3
(bands 0-1: `1 + tilt_effect*(-0.8)`, band 2: 1, bands 3-4:
`1 + tilt_effect*0.8`, clamped to [0.2, 1.8]). -/
def spec_eq_gain_db (i : ℕ) (amount tilt avg_gr_factor : ℝ) : ℝ :=
  |gainToDb avg_gr_factor| / 24 * (amount * tiltBias i tilt)

lemma gainToDb_tenth : gainToDb (1 / 10) = -20 := by
  have h : max |(1 / 10 : ℝ)| 1e-5 = ((10 : ℝ) ^ (1 : ℕ))⁻¹ := by
    rw [abs_of_nonneg (by norm_num : (0 : ℝ) ≤ 1 / 10), max_eq_left (by norm_num)]
    norm_num
  rw [gainToDb, h, logb10_inv_pow]
  norm_num

lemma tiltEffect_one : tiltEffect 1 = 1 := by
  rw [tiltEffect, signum, if_neg (by norm_num : ¬(1 : ℝ) < 0), abs_one, Real.one_rpow]
  ring

/-- C5 counterexample: the reactive EQ's gain law does not match the claim.  At
band 0, amount = 1, tilt = 1, measured gain-reduction factor 1/10 the code
computes 2 dB (its tilt factor is `1 - 0.6` clamped to [0.4, 1.6], times the
6 dB max-compensation scale) while the claim's formula (section 4.3 bias
`1 - 0.8` clamped to [0.2, 1.8], no 6 dB scale) gives 1/6 dB. -/
theorem reactive_eq_gain_cex :
    eqCompensationGainDb 0 1 1 (1 / 10) ≠ spec_eq_gain_db 0 1 1 (1 / 10) := by
  have h1 : eqBandTiltFactor 0 1 = 0.4 := by
    rw [eqBandTiltFactor, if_pos (by norm_num : (0 : ℕ) ≤ 1), tiltEffect_one, clampR]
    norm_num
  have h2 : tiltBias 0 1 = 0.2 := by
    rw [tiltBias, if_pos (by norm_num : (0 : ℕ) ≤ 1), tiltEffect_one, clampR]
    norm_num
  rw [eqCompensationGainDb, spec_eq_gain_db, gainToDb_tenth, h1, h2, MAX_COMPENSATION_DB]
  norm_num

/-- Model of the nih_plug `Smoother` state: a current value and a target. -/
structure Smoother where
  current : ℝ
  target : ℝ

/-- Models nih_plug `Smoother::set_target`. -/
def Smoother.setTarget (s : Smoother) (t : ℝ) : Smoother := { s with target := t }

/-- Models nih_plug `Smoother::next` for `SmoothingStyle::Exponential(time_ms)`:
a one-pole step toward the target with coefficient `exp(-1/steps)` where
`steps = sample_rate * time_ms / 1000`.  The library's step-count bookkeeping
(which only decides when smoothing is considered finished) is omitted; every
theorem below uses this model only at fixed points `current = target`, where
any exponential smoother returns the target. -/
def Smoother.next (s : Smoother) (sample_rate time_ms : ℝ) : ℝ × Smoother :=
  let v := s.target + (s.current - s.target) * Real.exp (-1 / (sample_rate * time_ms / 1000))
  (v, { s with current := v })

/-- Models nih_plug `Smoother::reset`: current and target jump to the value. -/
def Smoother.resetTo (v : ℝ) : Smoother := ⟨v, v⟩

/-- Struct `ProcessingBand` from src/dsp.rs (lines 16-25). -/
structure ProcessingBand where
  compensation_eq : Biquad
  envelope_l : ℝ
  envelope_r : ℝ
  applied_gr_smoother_l : Smoother
  applied_gr_smoother_r : Smoother

/-- Method `ProcessingBand::reset` from src/dsp.rs (lines 41-47). -/
def ProcessingBand.reset (pb : ProcessingBand) : ProcessingBand :=
  ⟨pb.compensation_eq.reset, 0, 0, Smoother.resetTo 1, Smoother.resetTo 1⟩

/-- Output of one band of the parallel dynamics stage. -/
structure BandStepResult where
  outl : ℝ
  outr : ℝ
  grl : ℝ
  grr : ℝ
  band : ProcessingBand

/-- One band of the parallel stage B.2 of `ColorFall::process` (src/lib.rs
lines 320-393): saturate, follow the envelope per channel, compute the target
gain reduction, smooth it (exponential, 1 ms) and apply the smoothed factor. -/
def bandStep (sample_rate amount tilt : ℝ) (i : ℕ) (pb : ProcessingBand)
    (bl br : ℝ) : BandStepResult :=
  let bl1 := saturate bl amount
  let br1 := saturate br amount
  let tc := calculate_dynamic_time_constants sample_rate
    (bandCenterFreq sample_rate tilt i) amount
  let power_l := bl1 * bl1
  let alpha_l := if power_l > pb.envelope_l then 1 - Real.exp (-1 / tc.1)
    else 1 - Real.exp (-1 / tc.2)
  let env_l := (1 - alpha_l) * pb.envelope_l + alpha_l * power_l
  let power_r := br1 * br1
  let alpha_r := if power_r > pb.envelope_r then 1 - Real.exp (-1 / tc.1)
    else 1 - Real.exp (-1 / tc.2)
  let env_r := (1 - alpha_r) * pb.envelope_r + alpha_r * power_r
  let tgl := calculate_target_gr i amount tilt (Real.sqrt env_l)
  let tgr := calculate_target_gr i amount tilt (Real.sqrt env_r)
  let nl := (pb.applied_gr_smoother_l.setTarget tgl).next sample_rate 1
  let nr := (pb.applied_gr_smoother_r.setTarget tgr).next sample_rate 1
  { outl := bl1 * nl.1
    outr := br1 * nr.1
    grl := nl.1
    grr := nr.1
    band := { pb with
      envelope_l := env_l
      envelope_r := env_r
      applied_gr_smoother_l := nl.2
      applied_gr_smoother_r := nr.2 } }

/-- Output of one band of the serial compensation-EQ stage. -/
structure EqStepResult where
  outl : ℝ
  outr : ℝ
  band : ProcessingBand

/-- One band of the serial compensation-EQ stage C of `ColorFall::process`
(src/lib.rs lines 408-455): per sample, recompute the peaking coefficients from
the measured gain reduction of this sample, then filter the wet signal. -/
def eqStep (sample_rate amount tilt : ℝ) (i : ℕ) (grl grr : ℝ)
    (pb : ProcessingBand) (wl wr : ℝ) : EqStepResult :=
  let comp_gain := eqCompensationGainDb i amount tilt ((grl + grr) / 2)
  let eq := pb.compensation_eq.update_peaking sample_rate
    (bandCenterFreq sample_rate tilt i) (eqQFactor i amount tilt) comp_gain
  let res := eq.process wl wr
  { outl := res.1.1, outr := res.1.2, band := { pb with compensation_eq := res.2 } }

/-- Processing state of the `ColorFall` plugin struct (src/lib.rs lines
122-144): four crossover filters, five processing bands, the two RMS trackers
and the two block-level smoothers. -/
structure ColorFallState where
  sample_rate : ℝ
  x0 : Biquad
  x1 : Biquad
  x2 : Biquad
  x3 : Biquad
  pb0 : ProcessingBand
  pb1 : ProcessingBand
  pb2 : ProcessingBand
  pb3 : ProcessingBand
  pb4 : ProcessingBand
  dry_rms_tracker : ℝ
  wet_rms_tracker : ℝ
  loudness_smoother : Smoother
  gr_meter_smoother : Smoother

/-- Method `ColorFall::update_crossover_filters` from src/lib.rs
(lines 171-179). -/
def updateCrossoverFilters (st : ColorFallState) (tilt : ℝ) : ColorFallState :=
  { st with
    x0 := st.x0.update_lr_lowpass st.sample_rate (shift_frequency (BASE_CROSSOVER_FREQS 0) tilt)
    x1 := st.x1.update_lr_lowpass st.sample_rate (shift_frequency (BASE_CROSSOVER_FREQS 1) tilt)
    x2 := st.x2.update_lr_lowpass st.sample_rate (shift_frequency (BASE_CROSSOVER_FREQS 2) tilt)
    x3 := st.x3.update_lr_lowpass st.sample_rate (shift_frequency (BASE_CROSSOVER_FREQS 3) tilt) }

/-- Method `ColorFall::reset` from src/lib.rs (lines 220-234): filters and
bands reset, loudness smoother to 1, meter smoother to 0, both RMS trackers to
the small epsilon 1e-6. -/
def resetState (st : ColorFallState) : ColorFallState :=
  { st with
    x0 := st.x0.reset
    x1 := st.x1.reset
    x2 := st.x2.reset
    x3 := st.x3.reset
    pb0 := st.pb0.reset
    pb1 := st.pb1.reset
    pb2 := st.pb2.reset
    pb3 := st.pb3.reset
    pb4 := st.pb4.reset
    loudness_smoother := Smoother.resetTo 1
    gr_meter_smoother := Smoother.resetTo 0
    dry_rms_tracker := 1e-6
    wet_rms_tracker := 1e-6 }

/-- Default-constructed `Biquad` (Rust `#[derive(Default)]`: all zeros). -/
def defaultBiquad : Biquad := ⟨⟨0, 0, 0, 0, 0⟩, ⟨0, 0⟩, ⟨0, 0⟩⟩

/-- Default `ProcessingBand` (src/dsp.rs lines 27-37); the freshly constructed
smoothers hold 0 until reset. -/
def defaultBand : ProcessingBand := ⟨defaultBiquad, 0, 0, ⟨0, 0⟩, ⟨0, 0⟩⟩

/-- Engine state right after `initialize` (which calls `reset`) at a given
sample rate (src/lib.rs lines 146-160 and 207-234). -/
def initialState (sample_rate : ℝ) : ColorFallState :=
  resetState ⟨sample_rate, defaultBiquad, defaultBiquad, defaultBiquad, defaultBiquad,
    defaultBand, defaultBand, defaultBand, defaultBand, defaultBand,
    0, 0, ⟨0, 0⟩, ⟨0, 0⟩⟩

/-- Macro-control values for one block.  The core consumes already-smoothed
per-sample parameter values from the host layer (spec section 3); they are
modelled as constant over the block. -/
structure Params where
  amount : ℝ
  tilt : ℝ
  mix : ℝ
  output_db : ℝ

/-- Result of processing one stereo sample. -/
structure SampleResult where
  out : ℝ × ℝ
  dry_pow : ℝ
  wet_pow : ℝ
  gr_db : ℝ
  state : ColorFallState

/-- One iteration of the sample loop of `ColorFall::process` (src/lib.rs lines
275-471): loudness-correction smoother step, constant-power mix gains, band
split, five parallel band steps, wet sum with the 1e-20 denormal guard, the
five serial EQ steps, loudness correction, wet-power tracking, and the final
dry/wet mix with output gain. -/
def processSample (st : ColorFallState) (p : Params) (l r : ℝ) : SampleResult :=
  let output_gain := dbToGain p.output_db
  let lc := st.loudness_smoother.next st.sample_rate 200
  let mix_phase := p.mix * (Real.pi / 2)
  let dry_gain := Real.cos mix_phase
  let wet_gain := Real.sin mix_phase
  let sp := splitBands st.x0 st.x1 st.x2 st.x3 l r
  let s0 := bandStep st.sample_rate p.amount p.tilt 0 st.pb0 sp.b0l sp.b0r
  let s1 := bandStep st.sample_rate p.amount p.tilt 1 st.pb1 sp.b1l sp.b1r
  let s2 := bandStep st.sample_rate p.amount p.tilt 2 st.pb2 sp.b2l sp.b2r
  let s3 := bandStep st.sample_rate p.amount p.tilt 3 st.pb3 sp.b3l sp.b3r
  let s4 := bandStep st.sample_rate p.amount p.tilt 4 st.pb4 sp.b4l sp.b4r
  let wetl := s0.outl + s1.outl + s2.outl + s3.outl + s4.outl + 1e-20
  let wetr := s0.outr + s1.outr + s2.outr + s3.outr + s4.outr + 1e-20
  let grdb := gainToDb ((s0.grl + s0.grr) / 2) + gainToDb ((s1.grl + s1.grr) / 2)
    + gainToDb ((s2.grl + s2.grr) / 2) + gainToDb ((s3.grl + s3.grr) / 2)
    + gainToDb ((s4.grl + s4.grr) / 2)
  let e0 := eqStep st.sample_rate p.amount p.tilt 0 s0.grl s0.grr s0.band wetl wetr
  let e1 := eqStep st.sample_rate p.amount p.tilt 1 s1.grl s1.grr s1.band e0.outl e0.outr
  let e2 := eqStep st.sample_rate p.amount p.tilt 2 s2.grl s2.grr s2.band e1.outl e1.outr
  let e3 := eqStep st.sample_rate p.amount p.tilt 3 s3.grl s3.grr s3.band e2.outl e2.outr
  let e4 := eqStep st.sample_rate p.amount p.tilt 4 s4.grl s4.grr s4.band e3.outl e3.outr
  let wl := e4.outl * lc.1
  let wr := e4.outr * lc.1
  { out := ((l * dry_gain + wl * wet_gain) * output_gain,
            (r * dry_gain + wr * wet_gain) * output_gain)
    dry_pow := (l * l + r * r) * 0.5
    wet_pow := (wl * wl + wr * wr) * 0.5
    gr_db := grdb
    state := { st with
      x0 := sp.x0
      x1 := sp.x1
      x2 := sp.x2
      x3 := sp.x3
      pb0 := e0.band
      pb1 := e1.band
      pb2 := e2.band
      pb3 := e3.band
      pb4 := e4.band
      loudness_smoother := lc.2 } }

/-- Accumulated result of a block: outputs, the three block accumulators, and
the final state. -/
structure BlockResult where
  outs : List (ℝ × ℝ)
  dry_sum : ℝ
  wet_sum : ℝ
  gr_sum : ℝ
  state : ColorFallState

/-- The sample loop of `ColorFall::process`, folded over the block's samples. -/
def processLoop (p : Params) : ColorFallState → List (ℝ × ℝ) → BlockResult
  | st, [] => ⟨[], 0, 0, 0, st⟩
  | st, (l, r) :: xs =>
    let s := processSample st p l r
    let rest := processLoop p s.state xs
    ⟨s.out :: rest.outs, s.dry_pow + rest.dry_sum, s.wet_pow + rest.wet_sum,
      s.gr_db + rest.gr_sum, rest.state⟩

/-- Method `ColorFall::process` from src/lib.rs (lines 236-497): update the
crossover filters, set the loudness-correction target from the previous
block's RMS trackers, run the sample loop, then (for a nonempty block)
overwrite the trackers with this block's mean powers and step the meter
smoother.  The second component is the smoothed average gain reduction
published to the meter. -/
def processBlock (st : ColorFallState) (p : Params) (xs : List (ℝ × ℝ)) :
    BlockResult × ℝ :=
  let st1 := updateCrossoverFilters st p.tilt
  let required := if st.wet_rms_tracker > 1e-6 ∧ st.dry_rms_tracker > 1e-6
    then Real.sqrt (st.dry_rms_tracker / st.wet_rms_tracker) else 1
  let st2 := { st1 with loudness_smoother := st1.loudness_smoother.setTarget required }
  let res := processLoop p st2 xs
  if 0 < xs.length then
    let n : ℝ := (xs.length : ℝ)
    let m := (res.state.gr_meter_smoother.setTarget (res.gr_sum / n)).next
      res.state.sample_rate 50
    ({ res with
        state := { res.state with
          dry_rms_tracker := res.dry_sum / n
          wet_rms_tracker := res.wet_sum / n
          gr_meter_smoother := m.2 } }, m.1)
  else (res, 0)

/-- C5 (amended): every sample, the i-th compensation-EQ filter is recomputed
as a peaking filter with Q `(0.7 + 8*amount^2) * (1 + tilt*(i-2)*0.4)` clamped
to [0.5, 20], center frequency the geometric mean of the band's tilt-shifted
crossover bounds (outer bounds 20 Hz and Nyquist), and gain
`(|gr_db|/24) * 6 * amount * band_tilt_factor` where `gr_db` is the measured
(smoothed) gain reduction of this sample and `band_tilt_factor` is
`1 + tilt_effect*(-0.6)` for bands 0-1, 1 for band 2, `1 + tilt_effect*0.6`
for bands 3-4, clamped to [0.4, 1.6] (NOT the section-4.3 bias). -/
theorem reactive_eq_params (sample_rate amount tilt : ℝ) (i : ℕ) (grl grr : ℝ)
    (pb : ProcessingBand) (wl wr : ℝ) :
    (eqStep sample_rate amount tilt i grl grr pb wl wr).band.compensation_eq.coefs
      = calculate_peaking sample_rate
          (Real.sqrt ((if i = 0 then 20
              else shift_frequency (BASE_CROSSOVER_FREQS (i - 1)) tilt)
            * (if i = 4 then sample_rate / 2
              else shift_frequency (BASE_CROSSOVER_FREQS i) tilt)))
          (clampR ((0.7 + 8 * amount ^ (2 : ℝ)) * (1 + tilt * ((i : ℝ) - 2) * 0.4)) 0.5 20)
          (|gainToDb ((grl + grr) / 2)| / 24 * 6
            * (amount * clampR (if i ≤ 1 then 1 + tiltEffect tilt * (-0.6)
                else if i = 2 then 1
                else if i ≤ 4 then 1 + tiltEffect tilt * 0.6
                else 1) 0.4 1.6)) := rfl

lemma processSample_loudness_target (st : ColorFallState) (p : Params) (l r : ℝ) :
    (processSample st p l r).state.loudness_smoother.target
      = st.loudness_smoother.target := rfl

lemma processSample_dry (st : ColorFallState) (p : Params) (l r : ℝ) :
    (processSample st p l r).dry_pow = (l * l + r * r) * 0.5 := rfl

lemma processLoop_target (p : Params) (st : ColorFallState) (xs : List (ℝ × ℝ)) :
    (processLoop p st xs).state.loudness_smoother.target
      = st.loudness_smoother.target := by
  induction xs generalizing st with
  | nil => rfl
  | cons x xs ih =>
    obtain ⟨l, r⟩ := x
    simp only [processLoop]
    exact (ih _).trans (processSample_loudness_target st p l r)

lemma processLoop_dry (p : Params) (st : ColorFallState) (xs : List (ℝ × ℝ)) :
    (processLoop p st xs).dry_sum
      = (xs.map fun s => (s.1 * s.1 + s.2 * s.2) * 0.5).sum := by
  induction xs generalizing st with
  | nil => rfl
  | cons x xs ih =>
    obtain ⟨l, r⟩ := x
    simp only [processLoop, List.map_cons, List.sum_cons, ih, processSample_dry]

/-- C6: at the start of every nonempty processed block the loudness-correction
target is computed from the RMS trackers as the previous block left them
(`sqrt(dry/wet)`, or 1 if either tracker is at the 1e-6 floor), and it is never
re-set during the block; the trackers themselves end the block holding this
block's mean-square dry and wet powers — the deliberate one-block latency. -/
theorem loudness_block_latency (st : ColorFallState) (p : Params)
    (xs : List (ℝ × ℝ)) (h : xs ≠ []) :
    (processBlock st p xs).1.state.loudness_smoother.target
      = (if st.wet_rms_tracker > 1e-6 ∧ st.dry_rms_tracker > 1e-6
         then Real.sqrt (st.dry_rms_tracker / st.wet_rms_tracker) else 1)
    ∧ (processBlock st p xs).1.state.dry_rms_tracker
      = (xs.map fun s => (s.1 * s.1 + s.2 * s.2) * 0.5).sum / xs.length
    ∧ (processBlock st p xs).1.state.wet_rms_tracker
      = (processBlock st p xs).1.wet_sum / xs.length := by
  have hn : 0 < xs.length := List.length_pos.mpr h
  simp only [processBlock, if_pos hn]
  refine ⟨?_, ?_, ?_⟩
  · rw [processLoop_target]
    rfl
  · rw [processLoop_dry]
  · trivial

/-- Witness for C6 at the freshly reset state, one block of one sample (1, 1). -/
theorem loudness_block_latency_witness :
    (processBlock (initialState 44100) ⟨0, 0, 1, 0⟩ [(1, 1)]).1.state.loudness_smoother.target
      = (if (initialState 44100).wet_rms_tracker > 1e-6
            ∧ (initialState 44100).dry_rms_tracker > 1e-6
         then Real.sqrt ((initialState 44100).dry_rms_tracker
            / (initialState 44100).wet_rms_tracker) else 1)
    ∧ (processBlock (initialState 44100) ⟨0, 0, 1, 0⟩ [(1, 1)]).1.state.dry_rms_tracker
      = (([((1 : ℝ), (1 : ℝ))]).map fun s => (s.1 * s.1 + s.2 * s.2) * 0.5).sum
          / ([((1 : ℝ), (1 : ℝ))]).length
    ∧ (processBlock (initialState 44100) ⟨0, 0, 1, 0⟩ [(1, 1)]).1.state.wet_rms_tracker
      = (processBlock (initialState 44100) ⟨0, 0, 1, 0⟩ [(1, 1)]).1.wet_sum
          / ([((1 : ℝ), (1 : ℝ))]).length :=
  loudness_block_latency (initialState 44100) ⟨0, 0, 1, 0⟩ [(1, 1)] (by simp)

/-! Evaluation lemmas used for the concrete block-processing runs. -/

lemma gr_factor_mem (i : ℕ) (a t e : ℝ) :
    0 ≤ calculate_target_gr i a t e ∧ calculate_target_gr i a t e ≤ 1 := by
  rw [calculate_target_gr]
  exact ⟨dbToGain_nonneg _, dbToGain_le_one (min_le_right _ _)⟩

lemma saturate_zero (a : ℝ) : saturate 0 a = 0 := by
  have h3 : (0 : ℝ) ^ (3 : ℝ) = 0 := Real.zero_rpow (by norm_num)
  simp only [saturate, h3, mul_zero, zero_sub, neg_zero, zero_mul, clampR]
  rw [min_eq_right (by norm_num : (0 : ℝ) ≤ 1), max_eq_right (by norm_num : (-1 : ℝ) ≤ 0)]

lemma rpow_three_eq (b : ℝ) : b ^ (3 : ℝ) = b * b * b := by
  rw [show (3 : ℝ) = ((3 : ℕ) : ℝ) by norm_num, Real.rpow_natCast]
  ring

/-- At amount 0 the saturator maps a band value in [0,1] into [0, 0.1]: the
drive is 0.1, not unity. -/
lemma saturate_a0_mem (b : ℝ) (hb0 : 0 ≤ b) (hb1 : b ≤ 1) :
    0 ≤ saturate b 0 ∧ saturate b 0 ≤ 0.1 := by
  have h0 : (0 : ℝ) ^ (1.5 : ℝ) = 0 := Real.zero_rpow (by norm_num)
  have hbb : b * b * b ≤ b := by nlinarith
  have hbb0 : 0 ≤ b * b * b := by positivity
  have hmem : 0 ≤ 0.1 * b - 0.01 / 3 * (b * b * b)
      ∧ 0.1 * b - 0.01 / 3 * (b * b * b) ≤ 0.1 := ⟨by nlinarith, by nlinarith⟩
  have hE : saturate b 0 = clampR (0.1 * b - 0.01 / 3 * (b * b * b)) (-1) 1 := by
    simp only [saturate, h0, rpow_three_eq]
    congr 1
    ring
  rw [hE, clampR_eq (by nlinarith [hmem.1]) (by nlinarith [hmem.2])]
  exact hmem

lemma smoother_fix_next (x sr tm : ℝ) :
    (((Smoother.resetTo x).setTarget x).next sr tm).1 = x := by
  simp [Smoother.resetTo, Smoother.setTarget, Smoother.next]

lemma smoother_one_next_mem (tg sr tm : ℝ) (h0 : 0 ≤ tg) (h1 : tg ≤ 1)
    (hsr : 0 < sr) (htm : 0 < tm) :
    0 ≤ (((Smoother.resetTo 1).setTarget tg).next sr tm).1
      ∧ (((Smoother.resetTo 1).setTarget tg).next sr tm).1 ≤ 1 := by
  simp only [Smoother.resetTo, Smoother.setTarget, Smoother.next]
  have hk0 : 0 < Real.exp (-1 / (sr * tm / 1000)) := Real.exp_pos _
  have hk1 : Real.exp (-1 / (sr * tm / 1000)) ≤ 1 := by
    rw [show (1 : ℝ) = Real.exp 0 by rw [Real.exp_zero]]
    apply Real.exp_le_exp.mpr
    apply div_nonpos_of_nonpos_of_nonneg (by norm_num)
    positivity
  constructor <;> nlinarith

/-- With envelope exactly 0 the detector reads the -100 dB floor, which is below
every knee, so the target gain reduction is exactly 1 (no attenuation). -/
lemma target_gr_zero_env (i : ℕ) (a t : ℝ) (hi : i ≤ 4) (ha0 : 0 ≤ a)
    (ha1 : a ≤ 1) (ht : |t| ≤ 1) : calculate_target_gr i a t 0 = 1 := by
  have hlb := threshold_knee_lb hi ha0 ha1 ht
  rw [calculate_target_gr, gainToDb_zero, softKneeGrDb,
    if_pos (by linarith : (-100 : ℝ) < thresholdDb i a t - kneeDb a / 2),
    min_self, dbToGain_zero]

/-- At amount 0, tilt 0 the threshold is -10 dB and the knee is 0, so any
envelope at most 0.1 (at most -20 dB) is below the knee: target factor 1. -/
lemma target_gr_a0_small (i : ℕ) (e : ℝ) (he0 : 0 ≤ e) (he1 : e ≤ 0.1) :
    calculate_target_gr i 0 0 e = 1 := by
  have hT : thresholdDb i 0 0 = -10 := by rw [thresholdDb]; ring
  have hK : kneeDb 0 = 0 := by
    rw [kneeDb, Real.zero_rpow (by norm_num : (1.5 : ℝ) ≠ 0), KNEE_MAX_DB]
    ring
  have hin : gainToDb e ≤ -20 := by
    rw [gainToDb, abs_of_nonneg he0]
    have hm0 : (0 : ℝ) < max e 1e-5 := lt_of_lt_of_le (by norm_num) (le_max_right _ _)
    have hm1 : max e 1e-5 ≤ 1 / 10 := max_le (by linarith) (by norm_num)
    have hlog : Real.log (max e 1e-5) ≤ Real.log (1 / 10) := Real.log_le_log hm0 hm1
    have h10 : Real.log (1 / 10 : ℝ) = -Real.log 10 := by rw [one_div, Real.log_inv]
    rw [Real.logb]
    have hdiv : Real.log (max e 1e-5) / Real.log 10 ≤ -1 := by
      rw [div_le_iff₀ log10_pos]
      rw [h10] at hlog
      linarith
    linarith
  rw [calculate_target_gr, hT, hK, softKneeGrDb,
    if_pos (by linarith : gainToDb e < -10 - 0 / 2), min_self, dbToGain_zero]

/-- Fields of a processing band as `reset` leaves them, as far as the output
path is concerned. -/
def FreshBand (pb : ProcessingBand) : Prop :=
  pb.applied_gr_smoother_l = Smoother.resetTo 1
    ∧ pb.applied_gr_smoother_r = Smoother.resetTo 1
    ∧ pb.compensation_eq.state_l.z1 = 0
    ∧ pb.envelope_l = 0
    ∧ pb.envelope_r = 0

lemma bandStep_band_eq (sr a t : ℝ) (i : ℕ) (pb : ProcessingBand) (bl br : ℝ) :
    (bandStep sr a t i pb bl br).band.compensation_eq = pb.compensation_eq := rfl

lemma bandStep_outl_zero (sr a t : ℝ) (i : ℕ) (pb : ProcessingBand) (br : ℝ) :
    (bandStep sr a t i pb 0 br).outl = 0 := by
  simp only [bandStep, saturate_zero, zero_mul]

lemma bandStep_outr_zero (sr a t : ℝ) (i : ℕ) (pb : ProcessingBand) (bl : ℝ) :
    (bandStep sr a t i pb bl 0).outr = 0 := by
  simp only [bandStep, saturate_zero, zero_mul]

/-- On a silent sample a fresh band reports a smoothed gain-reduction factor of
exactly 1 on each channel. -/
lemma bandStep_silent_gr (sr a t : ℝ) (i : ℕ) (pb : ProcessingBand)
    (hi : i ≤ 4) (ha0 : 0 ≤ a) (ha1 : a ≤ 1) (ht : |t| ≤ 1) (hf : FreshBand pb) :
    (bandStep sr a t i pb 0 0).grl = 1 ∧ (bandStep sr a t i pb 0 0).grr = 1 := by
  obtain ⟨hsl, hsr', _, hel, her⟩ := hf
  simp only [bandStep, saturate_zero, mul_zero, zero_mul, hel, her, add_zero,
    Real.sqrt_zero, target_gr_zero_env i a t hi ha0 ha1 ht, hsl, hsr',
    smoother_fix_next, and_self]

/-- On a fresh band with a band value in [0,1] and amount 0, tilt 0, the band
output is between 0 and 0.1 (the 0.1 saturation drive times a gain-reduction
factor at most 1). -/
lemma bandStep_outl_a0_mem (sr : ℝ) (i : ℕ) (pb : ProcessingBand) (bl br : ℝ)
    (hb0 : 0 ≤ bl) (hb1 : bl ≤ 1) (hsl : pb.applied_gr_smoother_l = Smoother.resetTo 1)
    (hsr : 0 < sr) :
    0 ≤ (bandStep sr 0 0 i pb bl br).outl ∧ (bandStep sr 0 0 i pb bl br).outl ≤ 0.1 := by
  have hsat := saturate_a0_mem bl hb0 hb1
  simp only [bandStep, hsl]
  have hg := smoother_one_next_mem
    (calculate_target_gr i 0 0 (Real.sqrt ((1 -
      (if saturate bl 0 * saturate bl 0 > pb.envelope_l
        then 1 - Real.exp (-1 / (calculate_dynamic_time_constants sr (bandCenterFreq sr 0 i) 0).1)
        else 1 - Real.exp (-1 / (calculate_dynamic_time_constants sr (bandCenterFreq sr 0 i) 0).2)))
        * pb.envelope_l +
      (if saturate bl 0 * saturate bl 0 > pb.envelope_l
        then 1 - Real.exp (-1 / (calculate_dynamic_time_constants sr (bandCenterFreq sr 0 i) 0).1)
        else 1 - Real.exp (-1 / (calculate_dynamic_time_constants sr (bandCenterFreq sr 0 i) 0).2))
        * (saturate bl 0 * saturate bl 0))))
    sr 1 (gr_factor_mem i 0 0 _).1 (gr_factor_mem i 0 0 _).2 hsr (by norm_num)
  constructor
  · exact mul_nonneg hsat.1 hg.1
  · nlinarith [hsat.1, hsat.2, hg.1, hg.2]

lemma eqCompGain_a0 (i : ℕ) (t g : ℝ) : eqCompensationGainDb i 0 t g = 0 := by
  rw [eqCompensationGainDb]
  ring

lemma eqQFactor_a0 (i : ℕ) : eqQFactor i 0 0 = 0.7 := by
  rw [eqQFactor, Real.zero_rpow (by norm_num : (2 : ℝ) ≠ 0),
    show ((0.7 : ℝ) + 8 * 0) * (1 + 0 * ((i : ℝ) - 2) * 0.4) = 0.7 by ring,
    clampR, min_eq_right (by norm_num : (0.7 : ℝ) ≤ 20),
    max_eq_right (by norm_num : (0.5 : ℝ) ≤ 0.7)]

lemma eqStep_a0_outl (sr : ℝ) (i : ℕ) (grl grr : ℝ) (pb : ProcessingBand)
    (wl wr : ℝ) (hz : pb.compensation_eq.state_l.z1 = 0) :
    (eqStep sr 0 0 i grl grr pb wl wr).outl
      = (calculate_peaking sr (bandCenterFreq sr 0 i) 0.7 0).b0 * wl := by
  simp only [eqStep, eqCompGain_a0, eqQFactor_a0, Biquad.update_peaking,
    Biquad.process, hz, add_zero]

lemma shift_frequency_zero (b : ℝ) : shift_frequency b 0 = b := by
  rw [shift_frequency, TILT_MAX_SHIFT_SEMITONES,
    show (0 : ℝ) * 4 / 12 = 0 by norm_num, Real.rpow_zero, mul_one]

lemma center_mem (i : ℕ) (hi : i ≤ 4) :
    0 < bandCenterFreq 44100 0 i ∧ bandCenterFreq 44100 0 i < 22050 := by
  interval_cases i <;>
    norm_num [bandCenterFreq, shift_frequency_zero, BASE_CROSSOVER_FREQS] <;>
    exact (Real.sqrt_lt' (by norm_num)).mpr (by norm_num)

lemma peaking_b0_mem (f : ℝ) (h0 : 0 < f) (h1 : f < 22050) :
    0 < (calculate_peaking 44100 f 0.7 0).b0
      ∧ (calculate_peaking 44100 f 0.7 0).b0 ≤ 1 := by
  have hw0 : 0 < 2 * Real.pi * f / 44100 := by positivity
  have hwpi : 2 * Real.pi * f / 44100 < Real.pi := by
    rw [div_lt_iff₀ (by norm_num : (0 : ℝ) < 44100)]
    nlinarith [mul_pos Real.pi_pos (show (0 : ℝ) < 22050 - f by linarith)]
  have hs : 0 < Real.sin (2 * Real.pi * f / 44100) :=
    Real.sin_pos_of_pos_of_lt_pi hw0 hwpi
  have hs14 : 0 < Real.sin (2 * Real.pi * f / 44100) / (2 * 0.7) :=
    div_pos hs (by norm_num)
  simp only [calculate_peaking, dbToGain_zero, mul_one, div_one]
  constructor
  · exact div_pos (by linarith) (by linarith)
  · rw [div_le_one (by linarith)]
    linarith

lemma two_mul_inv_sqrt_two : 2 * (1 / Real.sqrt 2) = Real.sqrt 2 := by
  rw [one_div]
  field_simp

lemma lr_b0_mem (f : ℝ) (h0 : 0 < f) (h1 : f < 22050) :
    0 < (calculate_lr_lowpass 44100 f).b0
      ∧ (calculate_lr_lowpass 44100 f).b0 ≤ 1 := by
  have hw0 : 0 < 2 * Real.pi * f / 44100 := by positivity
  have hwpi : 2 * Real.pi * f / 44100 < Real.pi := by
    rw [div_lt_iff₀ (by norm_num : (0 : ℝ) < 44100)]
    nlinarith [mul_pos Real.pi_pos (show (0 : ℝ) < 22050 - f by linarith)]
  have hs : 0 < Real.sin (2 * Real.pi * f / 44100) :=
    Real.sin_pos_of_pos_of_lt_pi hw0 hwpi
  have hc1 : Real.cos (2 * Real.pi * f / 44100) < 1 := by
    nlinarith [Real.sin_sq_add_cos_sq (2 * Real.pi * f / 44100),
      sq_nonneg (Real.cos (2 * Real.pi * f / 44100) - 1), mul_pos hs hs]
  have hcm : -1 ≤ Real.cos (2 * Real.pi * f / 44100) := Real.neg_one_le_cos _
  have hd : 1 < lrA0 44100 f := by
    rw [lrA0, two_mul_inv_sqrt_two]
    have := div_pos hs sqrt_two_pos
    linarith
  simp only [calculate_lr_lowpass]
  constructor
  · exact div_pos (by linarith) (by linarith)
  · rw [div_le_one (by linarith)]
    linarith

lemma splitBands_unit_left (c0 c1 c2 c3 : BiquadCoefficients)
    (h00 : 0 ≤ c0.b0) (h01 : c0.b0 ≤ 1) (h10 : 0 ≤ c1.b0) (h11 : c1.b0 ≤ 1)
    (h20 : 0 ≤ c2.b0) (h21 : c2.b0 ≤ 1) (h30 : 0 ≤ c3.b0) (h31 : c3.b0 ≤ 1) :
    (0 ≤ (splitBands ⟨c0, ⟨0, 0⟩, ⟨0, 0⟩⟩ ⟨c1, ⟨0, 0⟩, ⟨0, 0⟩⟩ ⟨c2, ⟨0, 0⟩, ⟨0, 0⟩⟩
        ⟨c3, ⟨0, 0⟩, ⟨0, 0⟩⟩ 1 1).b0l
      ∧ (splitBands ⟨c0, ⟨0, 0⟩, ⟨0, 0⟩⟩ ⟨c1, ⟨0, 0⟩, ⟨0, 0⟩⟩ ⟨c2, ⟨0, 0⟩, ⟨0, 0⟩⟩
        ⟨c3, ⟨0, 0⟩, ⟨0, 0⟩⟩ 1 1).b0l ≤ 1)
    ∧ (0 ≤ (splitBands ⟨c0, ⟨0, 0⟩, ⟨0, 0⟩⟩ ⟨c1, ⟨0, 0⟩, ⟨0, 0⟩⟩ ⟨c2, ⟨0, 0⟩, ⟨0, 0⟩⟩
        ⟨c3, ⟨0, 0⟩, ⟨0, 0⟩⟩ 1 1).b1l
      ∧ (splitBands ⟨c0, ⟨0, 0⟩, ⟨0, 0⟩⟩ ⟨c1, ⟨0, 0⟩, ⟨0, 0⟩⟩ ⟨c2, ⟨0, 0⟩, ⟨0, 0⟩⟩
        ⟨c3, ⟨0, 0⟩, ⟨0, 0⟩⟩ 1 1).b1l ≤ 1)
    ∧ (0 ≤ (splitBands ⟨c0, ⟨0, 0⟩, ⟨0, 0⟩⟩ ⟨c1, ⟨0, 0⟩, ⟨0, 0⟩⟩ ⟨c2, ⟨0, 0⟩, ⟨0, 0⟩⟩
        ⟨c3, ⟨0, 0⟩, ⟨0, 0⟩⟩ 1 1).b2l
      ∧ (splitBands ⟨c0, ⟨0, 0⟩, ⟨0, 0⟩⟩ ⟨c1, ⟨0, 0⟩, ⟨0, 0⟩⟩ ⟨c2, ⟨0, 0⟩, ⟨0, 0⟩⟩
        ⟨c3, ⟨0, 0⟩, ⟨0, 0⟩⟩ 1 1).b2l ≤ 1)
    ∧ (0 ≤ (splitBands ⟨c0, ⟨0, 0⟩, ⟨0, 0⟩⟩ ⟨c1, ⟨0, 0⟩, ⟨0, 0⟩⟩ ⟨c2, ⟨0, 0⟩, ⟨0, 0⟩⟩
        ⟨c3, ⟨0, 0⟩, ⟨0, 0⟩⟩ 1 1).b3l
      ∧ (splitBands ⟨c0, ⟨0, 0⟩, ⟨0, 0⟩⟩ ⟨c1, ⟨0, 0⟩, ⟨0, 0⟩⟩ ⟨c2, ⟨0, 0⟩, ⟨0, 0⟩⟩
        ⟨c3, ⟨0, 0⟩, ⟨0, 0⟩⟩ 1 1).b3l ≤ 1)
    ∧ (0 ≤ (splitBands ⟨c0, ⟨0, 0⟩, ⟨0, 0⟩⟩ ⟨c1, ⟨0, 0⟩, ⟨0, 0⟩⟩ ⟨c2, ⟨0, 0⟩, ⟨0, 0⟩⟩
        ⟨c3, ⟨0, 0⟩, ⟨0, 0⟩⟩ 1 1).b4l
      ∧ (splitBands ⟨c0, ⟨0, 0⟩, ⟨0, 0⟩⟩ ⟨c1, ⟨0, 0⟩, ⟨0, 0⟩⟩ ⟨c2, ⟨0, 0⟩, ⟨0, 0⟩⟩
        ⟨c3, ⟨0, 0⟩, ⟨0, 0⟩⟩ 1 1).b4l ≤ 1) := by
  have hv0 : 0 ≤ c2.b0 * c3.b0 := mul_nonneg h20 h30
  have hv1 : c2.b0 * c3.b0 ≤ 1 := by nlinarith
  have hw0 : 0 ≤ c1.b0 * (c2.b0 * c3.b0) := mul_nonneg h10 hv0
  have hw1 : c1.b0 * (c2.b0 * c3.b0) ≤ 1 := by nlinarith
  have hx0 : 0 ≤ c0.b0 * (c1.b0 * (c2.b0 * c3.b0)) := mul_nonneg h00 hw0
  have hx1 : c0.b0 * (c1.b0 * (c2.b0 * c3.b0)) ≤ 1 := by nlinarith
  have hvu : c2.b0 * c3.b0 ≤ c3.b0 := by nlinarith
  have hwv : c1.b0 * (c2.b0 * c3.b0) ≤ c2.b0 * c3.b0 := by nlinarith
  have hxw : c0.b0 * (c1.b0 * (c2.b0 * c3.b0)) ≤ c1.b0 * (c2.b0 * c3.b0) := by nlinarith
  simp only [splitBands, Biquad.process, mul_one, add_zero, mul_zero, zero_add]
  refine ⟨⟨?_, ?_⟩, ⟨?_, ?_⟩, ⟨?_, ?_⟩, ⟨?_, ?_⟩, ?_, ?_⟩ <;> nlinarith

/-- A biquad whose two channel states are zeroed (as `reset` leaves them). -/
def ZeroStateX (b : Biquad) : Prop := b.state_l = ⟨0, 0⟩ ∧ b.state_r = ⟨0, 0⟩

lemma splitBands_silent (c0 c1 c2 c3 : Biquad) (h0 : ZeroStateX c0)
    (h1 : ZeroStateX c1) (h2 : ZeroStateX c2) (h3 : ZeroStateX c3) :
    (splitBands c0 c1 c2 c3 0 0).b0l = 0 ∧ (splitBands c0 c1 c2 c3 0 0).b1l = 0
    ∧ (splitBands c0 c1 c2 c3 0 0).b2l = 0 ∧ (splitBands c0 c1 c2 c3 0 0).b3l = 0
    ∧ (splitBands c0 c1 c2 c3 0 0).b4l = 0
    ∧ (splitBands c0 c1 c2 c3 0 0).b0r = 0 ∧ (splitBands c0 c1 c2 c3 0 0).b1r = 0
    ∧ (splitBands c0 c1 c2 c3 0 0).b2r = 0 ∧ (splitBands c0 c1 c2 c3 0 0).b3r = 0
    ∧ (splitBands c0 c1 c2 c3 0 0).b4r = 0 := by
  obtain ⟨h0l, h0r⟩ := h0
  obtain ⟨h1l, h1r⟩ := h1
  obtain ⟨h2l, h2r⟩ := h2
  obtain ⟨h3l, h3r⟩ := h3
  simp [splitBands, Biquad.process, h0l, h0r, h1l, h1r, h2l, h2r, h3l, h3r]

lemma processSample_meter (st : ColorFallState) (p : Params) (l r : ℝ) :
    (processSample st p l r).state.gr_meter_smoother = st.gr_meter_smoother := rfl

/-- With Mix = 0 the wet path is multiplied by sin 0 = 0 and the dry input is
silent, so the output sample is exactly (0, 0) whatever the state. -/
lemma processSample_mix0_silent_out (st : ColorFallState) (amount tilt odb : ℝ) :
    (processSample st ⟨amount, tilt, 0, odb⟩ 0 0).out = (0, 0) := by
  simp only [processSample]
  rw [show (0 : ℝ) * (Real.pi / 2) = 0 from zero_mul _, Real.sin_zero, Real.cos_zero]
  simp

/-- On a silent sample through zero-state crossovers and fresh bands, the five
smoothed gain-reduction factors are all exactly 1, so the per-sample
gain-reduction sum in dB is 0. -/
lemma processSample_silent_grdb (st : ColorFallState) (amount tilt mix odb : ℝ)
    (ha0 : 0 ≤ amount) (ha1 : amount ≤ 1) (ht : |tilt| ≤ 1)
    (hzx0 : ZeroStateX st.x0) (hzx1 : ZeroStateX st.x1) (hzx2 : ZeroStateX st.x2)
    (hzx3 : ZeroStateX st.x3)
    (hf0 : FreshBand st.pb0) (hf1 : FreshBand st.pb1) (hf2 : FreshBand st.pb2)
    (hf3 : FreshBand st.pb3) (hf4 : FreshBand st.pb4) :
    (processSample st ⟨amount, tilt, mix, odb⟩ 0 0).gr_db = 0 := by
  have hsp := splitBands_silent st.x0 st.x1 st.x2 st.x3 hzx0 hzx1 hzx2 hzx3
  obtain ⟨hb0l, hb1l, hb2l, hb3l, hb4l, hb0r, hb1r, hb2r, hb3r, hb4r⟩ := hsp
  have hg0 := bandStep_silent_gr st.sample_rate amount tilt 0 st.pb0
    (by norm_num) ha0 ha1 ht hf0
  have hg1 := bandStep_silent_gr st.sample_rate amount tilt 1 st.pb1
    (by norm_num) ha0 ha1 ht hf1
  have hg2 := bandStep_silent_gr st.sample_rate amount tilt 2 st.pb2
    (by norm_num) ha0 ha1 ht hf2
  have hg3 := bandStep_silent_gr st.sample_rate amount tilt 3 st.pb3
    (by norm_num) ha0 ha1 ht hf3
  have hg4 := bandStep_silent_gr st.sample_rate amount tilt 4 st.pb4
    (by norm_num) ha0 ha1 ht hf4
  simp only [processSample]
  rw [hb0l, hb1l, hb2l, hb3l, hb4l, hb0r, hb1r, hb2r, hb3r, hb4r]
  rw [hg0.1, hg0.2, hg1.1, hg1.2, hg2.1, hg2.2, hg3.1, hg3.2, hg4.1, hg4.2]
  rw [show ((1 : ℝ) + 1) / 2 = 1 by norm_num, gainToDb_one]
  ring

/-- The engine state as the first sample of the first block after reset sees
it: crossover coefficients updated for the block's tilt, loudness-correction
target set from the fresh RMS trackers. -/
def blockStartState (sr tilt : ℝ) : ColorFallState :=
  { updateCrossoverFilters (initialState sr) tilt with
    loudness_smoother :=
      (updateCrossoverFilters (initialState sr) tilt).loudness_smoother.setTarget
        (if (initialState sr).wet_rms_tracker > 1e-6
            ∧ (initialState sr).dry_rms_tracker > 1e-6
         then Real.sqrt ((initialState sr).dry_rms_tracker
            / (initialState sr).wet_rms_tracker)
         else 1) }

/-- First sample of the first block after reset at 44.1 kHz with tilt 0. -/
def firstSampleState : ColorFallState := blockStartState 44100 0

lemma firstSampleState_x0 :
    firstSampleState.x0 = ⟨calculate_lr_lowpass 44100 150, ⟨0, 0⟩, ⟨0, 0⟩⟩ := by
  simp [firstSampleState, blockStartState, updateCrossoverFilters, initialState,
    resetState, Biquad.update_lr_lowpass, Biquad.reset, defaultBiquad,
    shift_frequency_zero, BASE_CROSSOVER_FREQS]

lemma firstSampleState_x1 :
    firstSampleState.x1 = ⟨calculate_lr_lowpass 44100 800, ⟨0, 0⟩, ⟨0, 0⟩⟩ := by
  simp [firstSampleState, blockStartState, updateCrossoverFilters, initialState,
    resetState, Biquad.update_lr_lowpass, Biquad.reset, defaultBiquad,
    shift_frequency_zero, BASE_CROSSOVER_FREQS]

lemma firstSampleState_x2 :
    firstSampleState.x2 = ⟨calculate_lr_lowpass 44100 4000, ⟨0, 0⟩, ⟨0, 0⟩⟩ := by
  simp [firstSampleState, blockStartState, updateCrossoverFilters, initialState,
    resetState, Biquad.update_lr_lowpass, Biquad.reset, defaultBiquad,
    shift_frequency_zero, BASE_CROSSOVER_FREQS]

lemma firstSampleState_x3 :
    firstSampleState.x3 = ⟨calculate_lr_lowpass 44100 9000, ⟨0, 0⟩, ⟨0, 0⟩⟩ := by
  simp [firstSampleState, blockStartState, updateCrossoverFilters, initialState,
    resetState, Biquad.update_lr_lowpass, Biquad.reset, defaultBiquad,
    shift_frequency_zero, BASE_CROSSOVER_FREQS]

lemma firstSampleState_loudness : firstSampleState.loudness_smoother = ⟨1, 1⟩ := by
  simp only [firstSampleState, blockStartState, initialState, resetState,
    updateCrossoverFilters, Smoother.setTarget, Smoother.resetTo]
  norm_num

/-- At amount 0, tilt 0, mix 1, output 0 dB, the first output sample for unit
input after reset is at most 0.51: the 0.1 saturation drive caps every band
contribution at 0.1 and the EQ and loudness stages cannot raise it. -/
lemma processSample_a0_bound (st : ColorFallState)
    (hsr : st.sample_rate = 44100)
    (hx0 : st.x0 = ⟨calculate_lr_lowpass 44100 150, ⟨0, 0⟩, ⟨0, 0⟩⟩)
    (hx1 : st.x1 = ⟨calculate_lr_lowpass 44100 800, ⟨0, 0⟩, ⟨0, 0⟩⟩)
    (hx2 : st.x2 = ⟨calculate_lr_lowpass 44100 4000, ⟨0, 0⟩, ⟨0, 0⟩⟩)
    (hx3 : st.x3 = ⟨calculate_lr_lowpass 44100 9000, ⟨0, 0⟩, ⟨0, 0⟩⟩)
    (hf0 : FreshBand st.pb0) (hf1 : FreshBand st.pb1) (hf2 : FreshBand st.pb2)
    (hf3 : FreshBand st.pb3) (hf4 : FreshBand st.pb4)
    (hls : st.loudness_smoother = ⟨1, 1⟩) :
    (processSample st ⟨0, 0, 1, 0⟩ 1 1).out.1 ≤ 0.51 := by
  have h150 := lr_b0_mem 150 (by norm_num) (by norm_num)
  have h800 := lr_b0_mem 800 (by norm_num) (by norm_num)
  have h4000 := lr_b0_mem 4000 (by norm_num) (by norm_num)
  have h9000 := lr_b0_mem 9000 (by norm_num) (by norm_num)
  have hp0 := peaking_b0_mem (bandCenterFreq 44100 0 0)
    (center_mem 0 (by norm_num)).1 (center_mem 0 (by norm_num)).2
  have hp1 := peaking_b0_mem (bandCenterFreq 44100 0 1)
    (center_mem 1 (by norm_num)).1 (center_mem 1 (by norm_num)).2
  have hp2 := peaking_b0_mem (bandCenterFreq 44100 0 2)
    (center_mem 2 (by norm_num)).1 (center_mem 2 (by norm_num)).2
  have hp3 := peaking_b0_mem (bandCenterFreq 44100 0 3)
    (center_mem 3 (by norm_num)).1 (center_mem 3 (by norm_num)).2
  have hp4 := peaking_b0_mem (bandCenterFreq 44100 0 4)
    (center_mem 4 (by norm_num)).1 (center_mem 4 (by norm_num)).2
  simp only [processSample]
  rw [hsr, hx0, hx1, hx2, hx3, hls]
  set sp := splitBands ⟨calculate_lr_lowpass 44100 150, ⟨0, 0⟩, ⟨0, 0⟩⟩
    ⟨calculate_lr_lowpass 44100 800, ⟨0, 0⟩, ⟨0, 0⟩⟩
    ⟨calculate_lr_lowpass 44100 4000, ⟨0, 0⟩, ⟨0, 0⟩⟩
    ⟨calculate_lr_lowpass 44100 9000, ⟨0, 0⟩, ⟨0, 0⟩⟩ 1 1 with hspdef
  have hspB := splitBands_unit_left (calculate_lr_lowpass 44100 150)
    (calculate_lr_lowpass 44100 800) (calculate_lr_lowpass 44100 4000)
    (calculate_lr_lowpass 44100 9000) h150.1.le h150.2 h800.1.le h800.2
    h4000.1.le h4000.2 h9000.1.le h9000.2
  rw [← hspdef] at hspB
  clear_value sp
  set s0 := bandStep 44100 0 0 0 st.pb0 sp.b0l sp.b0r with hs0
  set s1 := bandStep 44100 0 0 1 st.pb1 sp.b1l sp.b1r with hs1
  set s2 := bandStep 44100 0 0 2 st.pb2 sp.b2l sp.b2r with hs2
  set s3 := bandStep 44100 0 0 3 st.pb3 sp.b3l sp.b3r with hs3
  set s4 := bandStep 44100 0 0 4 st.pb4 sp.b4l sp.b4r with hs4
  clear_value s0 s1 s2 s3 s4
  have hb0 : 0 ≤ s0.outl ∧ s0.outl ≤ 0.1 := by
    rw [hs0]
    exact bandStep_outl_a0_mem 44100 0 st.pb0 sp.b0l sp.b0r hspB.1.1 hspB.1.2
      hf0.1 (by norm_num)
  have hb1 : 0 ≤ s1.outl ∧ s1.outl ≤ 0.1 := by
    rw [hs1]
    exact bandStep_outl_a0_mem 44100 1 st.pb1 sp.b1l sp.b1r hspB.2.1.1 hspB.2.1.2
      hf1.1 (by norm_num)
  have hb2 : 0 ≤ s2.outl ∧ s2.outl ≤ 0.1 := by
    rw [hs2]
    exact bandStep_outl_a0_mem 44100 2 st.pb2 sp.b2l sp.b2r hspB.2.2.1.1
      hspB.2.2.1.2 hf2.1 (by norm_num)
  have hb3 : 0 ≤ s3.outl ∧ s3.outl ≤ 0.1 := by
    rw [hs3]
    exact bandStep_outl_a0_mem 44100 3 st.pb3 sp.b3l sp.b3r hspB.2.2.2.1.1
      hspB.2.2.2.1.2 hf3.1 (by norm_num)
  have hb4 : 0 ≤ s4.outl ∧ s4.outl ≤ 0.1 := by
    rw [hs4]
    exact bandStep_outl_a0_mem 44100 4 st.pb4 sp.b4l sp.b4r hspB.2.2.2.2.1
      hspB.2.2.2.2.2 hf4.1 (by norm_num)
  have hz0 : s0.band.compensation_eq.state_l.z1 = 0 := by
    rw [hs0, bandStep_band_eq]
    exact hf0.2.2.1
  have hz1 : s1.band.compensation_eq.state_l.z1 = 0 := by
    rw [hs1, bandStep_band_eq]
    exact hf1.2.2.1
  have hz2 : s2.band.compensation_eq.state_l.z1 = 0 := by
    rw [hs2, bandStep_band_eq]
    exact hf2.2.2.1
  have hz3 : s3.band.compensation_eq.state_l.z1 = 0 := by
    rw [hs3, bandStep_band_eq]
    exact hf3.2.2.1
  have hz4 : s4.band.compensation_eq.state_l.z1 = 0 := by
    rw [hs4, bandStep_band_eq]
    exact hf4.2.2.1
  set W := s0.outl + s1.outl + s2.outl + s3.outl + s4.outl + 1e-20 with hWdef
  set WR := s0.outr + s1.outr + s2.outr + s3.outr + s4.outr + 1e-20 with hWRdef
  clear_value W WR
  have hWmem : 0 ≤ W ∧ W ≤ 0.501 := by
    rw [hWdef]
    constructor <;> linarith only [hb0.1, hb0.2, hb1.1, hb1.2, hb2.1, hb2.2,
      hb3.1, hb3.2, hb4.1, hb4.2]
  set B0 := (calculate_peaking 44100 (bandCenterFreq 44100 0 0) 0.7 0).b0 with hB0
  set B1 := (calculate_peaking 44100 (bandCenterFreq 44100 0 1) 0.7 0).b0 with hB1
  set B2 := (calculate_peaking 44100 (bandCenterFreq 44100 0 2) 0.7 0).b0 with hB2
  set B3 := (calculate_peaking 44100 (bandCenterFreq 44100 0 3) 0.7 0).b0 with hB3
  set B4 := (calculate_peaking 44100 (bandCenterFreq 44100 0 4) 0.7 0).b0 with hB4
  clear_value B0 B1 B2 B3 B4
  set e0 := eqStep 44100 0 0 0 s0.grl s0.grr s0.band W WR with he0
  set e1 := eqStep 44100 0 0 1 s1.grl s1.grr s1.band e0.outl e0.outr with he1
  set e2 := eqStep 44100 0 0 2 s2.grl s2.grr s2.band e1.outl e1.outr with he2
  set e3 := eqStep 44100 0 0 3 s3.grl s3.grr s3.band e2.outl e2.outr with he3
  set e4 := eqStep 44100 0 0 4 s4.grl s4.grr s4.band e3.outl e3.outr with he4
  clear_value e0 e1 e2 e3 e4
  have hE0 : e0.outl = B0 * W := by
    rw [he0, hB0]
    exact eqStep_a0_outl 44100 0 s0.grl s0.grr s0.band W WR hz0
  have hE1 : e1.outl = B1 * e0.outl := by
    rw [he1, hB1]
    exact eqStep_a0_outl 44100 1 s1.grl s1.grr s1.band e0.outl e0.outr hz1
  have hE2 : e2.outl = B2 * e1.outl := by
    rw [he2, hB2]
    exact eqStep_a0_outl 44100 2 s2.grl s2.grr s2.band e1.outl e1.outr hz2
  have hE3 : e3.outl = B3 * e2.outl := by
    rw [he3, hB3]
    exact eqStep_a0_outl 44100 3 s3.grl s3.grr s3.band e2.outl e2.outr hz3
  have hE4 : e4.outl = B4 * e3.outl := by
    rw [he4, hB4]
    exact eqStep_a0_outl 44100 4 s4.grl s4.grr s4.band e3.outl e3.outr hz4
  have hc0 : 0 ≤ e0.outl ∧ e0.outl ≤ 0.501 := by
    rw [hE0]
    constructor
    · exact mul_nonneg hp0.1.le hWmem.1
    · nlinarith only [hp0.1, hp0.2, hWmem.1, hWmem.2]
  have hc1 : 0 ≤ e1.outl ∧ e1.outl ≤ 0.501 := by
    rw [hE1]
    constructor
    · exact mul_nonneg hp1.1.le hc0.1
    · nlinarith only [hp1.1, hp1.2, hc0.1, hc0.2]
  have hc2 : 0 ≤ e2.outl ∧ e2.outl ≤ 0.501 := by
    rw [hE2]
    constructor
    · exact mul_nonneg hp2.1.le hc1.1
    · nlinarith only [hp2.1, hp2.2, hc1.1, hc1.2]
  have hc3 : 0 ≤ e3.outl ∧ e3.outl ≤ 0.501 := by
    rw [hE3]
    constructor
    · exact mul_nonneg hp3.1.le hc2.1
    · nlinarith only [hp3.1, hp3.2, hc2.1, hc2.2]
  have hc4 : 0 ≤ e4.outl ∧ e4.outl ≤ 0.501 := by
    rw [hE4]
    constructor
    · exact mul_nonneg hp4.1.le hc3.1
    · nlinarith only [hp4.1, hp4.2, hc3.1, hc3.2]
  have hlc : ((⟨1, 1⟩ : Smoother).next 44100 200).1 = 1 := by
    simp [Smoother.next]
  rw [hlc]
  simp only [one_mul]
  rw [Real.cos_pi_div_two, Real.sin_pi_div_two, dbToGain_zero]
  simp only [one_mul, mul_one, mul_zero, zero_add]
  linarith only [hc4.2]

/-- At amount 0, tilt 0, mix 1, output 0 dB, the first output sample for SILENT
input after reset is strictly positive: the 1e-20 denormal guard passes through
the five compensation-EQ sections, each with a positive b0 coefficient. -/
lemma processSample_silent_pos (st : ColorFallState)
    (hsr : st.sample_rate = 44100)
    (hx0 : st.x0 = ⟨calculate_lr_lowpass 44100 150, ⟨0, 0⟩, ⟨0, 0⟩⟩)
    (hx1 : st.x1 = ⟨calculate_lr_lowpass 44100 800, ⟨0, 0⟩, ⟨0, 0⟩⟩)
    (hx2 : st.x2 = ⟨calculate_lr_lowpass 44100 4000, ⟨0, 0⟩, ⟨0, 0⟩⟩)
    (hx3 : st.x3 = ⟨calculate_lr_lowpass 44100 9000, ⟨0, 0⟩, ⟨0, 0⟩⟩)
    (hf0 : FreshBand st.pb0) (hf1 : FreshBand st.pb1) (hf2 : FreshBand st.pb2)
    (hf3 : FreshBand st.pb3) (hf4 : FreshBand st.pb4)
    (hls : st.loudness_smoother = ⟨1, 1⟩) :
    0 < (processSample st ⟨0, 0, 1, 0⟩ 0 0).out.1 := by
  have hp0 := peaking_b0_mem (bandCenterFreq 44100 0 0)
    (center_mem 0 (by norm_num)).1 (center_mem 0 (by norm_num)).2
  have hp1 := peaking_b0_mem (bandCenterFreq 44100 0 1)
    (center_mem 1 (by norm_num)).1 (center_mem 1 (by norm_num)).2
  have hp2 := peaking_b0_mem (bandCenterFreq 44100 0 2)
    (center_mem 2 (by norm_num)).1 (center_mem 2 (by norm_num)).2
  have hp3 := peaking_b0_mem (bandCenterFreq 44100 0 3)
    (center_mem 3 (by norm_num)).1 (center_mem 3 (by norm_num)).2
  have hp4 := peaking_b0_mem (bandCenterFreq 44100 0 4)
    (center_mem 4 (by norm_num)).1 (center_mem 4 (by norm_num)).2
  simp only [processSample]
  rw [hsr, hx0, hx1, hx2, hx3, hls]
  have hsp := splitBands_silent ⟨calculate_lr_lowpass 44100 150, ⟨0, 0⟩, ⟨0, 0⟩⟩
    ⟨calculate_lr_lowpass 44100 800, ⟨0, 0⟩, ⟨0, 0⟩⟩
    ⟨calculate_lr_lowpass 44100 4000, ⟨0, 0⟩, ⟨0, 0⟩⟩
    ⟨calculate_lr_lowpass 44100 9000, ⟨0, 0⟩, ⟨0, 0⟩⟩
    ⟨rfl, rfl⟩ ⟨rfl, rfl⟩ ⟨rfl, rfl⟩ ⟨rfl, rfl⟩
  obtain ⟨hb0l, hb1l, hb2l, hb3l, hb4l, hb0r, hb1r, hb2r, hb3r, hb4r⟩ := hsp
  rw [hb0l, hb1l, hb2l, hb3l, hb4l, hb0r, hb1r, hb2r, hb3r, hb4r]
  simp only [bandStep_outl_zero, bandStep_outr_zero, zero_add]
  set s0 := bandStep 44100 0 0 0 st.pb0 0 0 with hs0
  set s1 := bandStep 44100 0 0 1 st.pb1 0 0 with hs1
  set s2 := bandStep 44100 0 0 2 st.pb2 0 0 with hs2
  set s3 := bandStep 44100 0 0 3 st.pb3 0 0 with hs3
  set s4 := bandStep 44100 0 0 4 st.pb4 0 0 with hs4
  clear_value s0 s1 s2 s3 s4
  have hz0 : s0.band.compensation_eq.state_l.z1 = 0 := by
    rw [hs0, bandStep_band_eq]
    exact hf0.2.2.1
  have hz1 : s1.band.compensation_eq.state_l.z1 = 0 := by
    rw [hs1, bandStep_band_eq]
    exact hf1.2.2.1
  have hz2 : s2.band.compensation_eq.state_l.z1 = 0 := by
    rw [hs2, bandStep_band_eq]
    exact hf2.2.2.1
  have hz3 : s3.band.compensation_eq.state_l.z1 = 0 := by
    rw [hs3, bandStep_band_eq]
    exact hf3.2.2.1
  have hz4 : s4.band.compensation_eq.state_l.z1 = 0 := by
    rw [hs4, bandStep_band_eq]
    exact hf4.2.2.1
  set B0 := (calculate_peaking 44100 (bandCenterFreq 44100 0 0) 0.7 0).b0 with hB0
  set B1 := (calculate_peaking 44100 (bandCenterFreq 44100 0 1) 0.7 0).b0 with hB1
  set B2 := (calculate_peaking 44100 (bandCenterFreq 44100 0 2) 0.7 0).b0 with hB2
  set B3 := (calculate_peaking 44100 (bandCenterFreq 44100 0 3) 0.7 0).b0 with hB3
  set B4 := (calculate_peaking 44100 (bandCenterFreq 44100 0 4) 0.7 0).b0 with hB4
  clear_value B0 B1 B2 B3 B4
  set e0 := eqStep 44100 0 0 0 s0.grl s0.grr s0.band 1e-20 1e-20 with he0
  set e1 := eqStep 44100 0 0 1 s1.grl s1.grr s1.band e0.outl e0.outr with he1
  set e2 := eqStep 44100 0 0 2 s2.grl s2.grr s2.band e1.outl e1.outr with he2
  set e3 := eqStep 44100 0 0 3 s3.grl s3.grr s3.band e2.outl e2.outr with he3
  set e4 := eqStep 44100 0 0 4 s4.grl s4.grr s4.band e3.outl e3.outr with he4
  clear_value e0 e1 e2 e3 e4
  have hE0 : e0.outl = B0 * 1e-20 := by
    rw [he0, hB0]
    exact eqStep_a0_outl 44100 0 s0.grl s0.grr s0.band 1e-20 1e-20 hz0
  have hE1 : e1.outl = B1 * e0.outl := by
    rw [he1, hB1]
    exact eqStep_a0_outl 44100 1 s1.grl s1.grr s1.band e0.outl e0.outr hz1
  have hE2 : e2.outl = B2 * e1.outl := by
    rw [he2, hB2]
    exact eqStep_a0_outl 44100 2 s2.grl s2.grr s2.band e1.outl e1.outr hz2
  have hE3 : e3.outl = B3 * e2.outl := by
    rw [he3, hB3]
    exact eqStep_a0_outl 44100 3 s3.grl s3.grr s3.band e2.outl e2.outr hz3
  have hE4 : e4.outl = B4 * e3.outl := by
    rw [he4, hB4]
    exact eqStep_a0_outl 44100 4 s4.grl s4.grr s4.band e3.outl e3.outr hz4
  have hpos : 0 < e4.outl := by
    rw [hE4, hE3, hE2, hE1, hE0]
    exact mul_pos hp4.1 (mul_pos hp3.1 (mul_pos hp2.1 (mul_pos hp1.1
      (mul_pos hp0.1 (by norm_num)))))
  have hlc : ((⟨1, 1⟩ : Smoother).next 44100 200).1 = 1 := by
    simp [Smoother.next]
  rw [hlc]
  simp only [one_mul]
  rw [Real.cos_pi_div_two, Real.sin_pi_div_two, dbToGain_zero]
  simp only [one_mul, mul_one, mul_zero, zero_add, zero_mul]
  linarith only [hpos]

/-- C2 counterexample: after reset, processing the unit sample (1, 1) with
Amount = 0 (tilt 0, mix 1 so the output IS the wet signal, output 0 dB) yields
an output below 0.51, nowhere near within 1e-4 of the input 1: at Amount = 0
the per-band processing is not inert (the saturator's drive is 0.1). -/
theorem amount_zero_not_transparent :
    ¬ |(processBlock (initialState 44100) ⟨0, 0, 1, 0⟩ [(1, 1)]).1.outs.headI.1 - 1|
        ≤ 1e-4 := by
  have h1 : (processBlock (initialState 44100) ⟨0, 0, 1, 0⟩ [(1, 1)]).1.outs.headI.1
      = (processSample firstSampleState ⟨0, 0, 1, 0⟩ 1 1).out.1 := rfl
  have hb := processSample_a0_bound firstSampleState rfl firstSampleState_x0
    firstSampleState_x1 firstSampleState_x2 firstSampleState_x3
    ⟨rfl, rfl, rfl, rfl, rfl⟩ ⟨rfl, rfl, rfl, rfl, rfl⟩ ⟨rfl, rfl, rfl, rfl, rfl⟩
    ⟨rfl, rfl, rfl, rfl, rfl⟩ ⟨rfl, rfl, rfl, rfl, rfl⟩ firstSampleState_loudness
  rw [h1]
  intro h
  have h2 := (abs_le.mp h).1
  linarith only [hb, h2]

/-- C2 (amended): summing the five crossover bands reconstructs the input
exactly at any setting, but at Amount = 0 the per-band processing is NOT
inert: the saturator reduces to `clamp(0.1x - (0.01/3)x^3, -1, 1)` (a 0.1
drive, about -20 dB) and the compressor keeps ratio 1.1. -/
theorem amount_zero_processing :
    (∀ x : ℝ, saturate x 0 = clampR (0.1 * x - 0.01 / 3 * (x * x * x)) (-1) 1)
    ∧ ratioOf 0 = 1.1
    ∧ ∀ (c0 c1 c2 c3 : Biquad) (l r : ℝ),
        (splitBands c0 c1 c2 c3 l r).b0l + (splitBands c0 c1 c2 c3 l r).b1l
          + (splitBands c0 c1 c2 c3 l r).b2l + (splitBands c0 c1 c2 c3 l r).b3l
          + (splitBands c0 c1 c2 c3 l r).b4l = l := by
  refine ⟨?_, ?_, ?_⟩
  · intro x
    have h0 : (0 : ℝ) ^ (1.5 : ℝ) = 0 := Real.zero_rpow (by norm_num)
    simp only [saturate, h0, rpow_three_eq]
    congr 1
    ring
  · rw [ratioOf, Real.zero_rpow (by norm_num : (2.5 : ℝ) ≠ 0)]
    ring
  · intro c0 c1 c2 c3 l r
    exact (splitBands_sum c0 c1 c2 c3 l r).1

/-- C7 counterexample: after reset, processing one silent sample with Mix = 1
yields a strictly positive left output sample, NOT zero: the 1e-20 denormal
guard leaks through the compensation-EQ chain into the wet path. -/
theorem silence_output_nonzero_cex :
    (processBlock (initialState 44100) ⟨0, 0, 1, 0⟩ [(0, 0)]).1.outs.headI.1 ≠ 0 := by
  have h1 : (processBlock (initialState 44100) ⟨0, 0, 1, 0⟩ [(0, 0)]).1.outs.headI.1
      = (processSample firstSampleState ⟨0, 0, 1, 0⟩ 0 0).out.1 := rfl
  rw [h1]
  exact ne_of_gt (processSample_silent_pos firstSampleState rfl firstSampleState_x0
    firstSampleState_x1 firstSampleState_x2 firstSampleState_x3
    ⟨rfl, rfl, rfl, rfl, rfl⟩ ⟨rfl, rfl, rfl, rfl, rfl⟩ ⟨rfl, rfl, rfl, rfl, rfl⟩
    ⟨rfl, rfl, rfl, rfl, rfl⟩ ⟨rfl, rfl, rfl, rfl, rfl⟩ firstSampleState_loudness)

/-- C7 (amended): after reset, processing one block of silence yields zero
reported gain reduction, and the output samples are exactly zero when Mix = 0;
with Mix > 0 the wet path carries the 1e-20 denormal-guard offset through the
EQ chain, so the output is tiny but not exactly zero. -/
theorem silence_after_reset (sr amount tilt odb : ℝ) (ha0 : 0 ≤ amount)
    (ha1 : amount ≤ 1) (ht : |tilt| ≤ 1) :
    (processBlock (initialState sr) ⟨amount, tilt, 0, odb⟩ [(0, 0)]).1.outs
        = [((0 : ℝ), (0 : ℝ))]
    ∧ (processBlock (initialState sr) ⟨amount, tilt, 0, odb⟩ [(0, 0)]).2 = 0 := by
  constructor
  · have h1 : (processBlock (initialState sr) ⟨amount, tilt, 0, odb⟩ [(0, 0)]).1.outs
        = [(processSample (blockStartState sr tilt) ⟨amount, tilt, 0, odb⟩ 0 0).out] := rfl
    rw [h1, processSample_mix0_silent_out]
  · have hgr : (processSample (blockStartState sr tilt) ⟨amount, tilt, 0, odb⟩ 0 0).gr_db
        = 0 :=
      processSample_silent_grdb (blockStartState sr tilt) amount tilt 0 odb ha0 ha1 ht
        ⟨rfl, rfl⟩ ⟨rfl, rfl⟩ ⟨rfl, rfl⟩ ⟨rfl, rfl⟩
        ⟨rfl, rfl, rfl, rfl, rfl⟩ ⟨rfl, rfl, rfl, rfl, rfl⟩ ⟨rfl, rfl, rfl, rfl, rfl⟩
        ⟨rfl, rfl, rfl, rfl, rfl⟩ ⟨rfl, rfl, rfl, rfl, rfl⟩
    have h2 : (processBlock (initialState sr) ⟨amount, tilt, 0, odb⟩ [(0, 0)]).2
        = (((Smoother.resetTo 0).setTarget
            (((processSample (blockStartState sr tilt) ⟨amount, tilt, 0, odb⟩ 0 0).gr_db + 0)
              / ((List.length [((0 : ℝ), (0 : ℝ))] : ℕ) : ℝ))).next sr 50).1 := rfl
    rw [h2, hgr]
    norm_num [Smoother.setTarget, Smoother.resetTo, Smoother.next]

/-- Witness for the amended C7 at sample rate 44100, amount 0, tilt 0,
output 0 dB. -/
theorem silence_after_reset_witness :
    (processBlock (initialState 44100) ⟨0, 0, 0, 0⟩ [(0, 0)]).1.outs
        = [((0 : ℝ), (0 : ℝ))]
    ∧ (processBlock (initialState 44100) ⟨0, 0, 0, 0⟩ [(0, 0)]).2 = 0 :=
  silence_after_reset 44100 0 0 0 (by norm_num) (by norm_num) (by norm_num)

end ColorFall
